import Mathlib

/-! # mach-shared-memory: fork-time rendezvous and remote shared-memory setup

A shallow embedding of `src/main.cpp`.

* Capabilities (`mach_port_t` values) are modelled by the identity of the kernel
  object they denote (a natural number, `MACH_PORT_NULL = 0`), return codes
  (`kern_return_t`) and addresses (`mach_vm_address_t`) by natural numbers; the per-task
  renaming of port names done by the kernel on message transfer is abstracted.
* The Mach kernel is an explicit state `Kernel`; every kernel call is a function
  on that state.  What the kernel decides on its own (whether a call fails, which
  address `VM_FLAGS_ANYWHERE` picks) is an explicit argument of the call.
* Every kernel call appends one `Event` (calling task, call with its arguments,
  return code) to `Kernel.trace`.
* `sampling_fork` is run by two processes; it is embedded as a program-counter
  machine with one step per kernel call (`sampling_fork_step`), and the two
  processes are interleaved by a schedule (`run`).
-/

namespace MachSharedMemory

def MACH_PORT_NULL : Nat := 0
def KERN_SUCCESS : Nat := 0
def KERN_INVALID_ADDRESS : Nat := 1
def KERN_NO_SPACE : Nat := 3
def KERN_INVALID_ARGUMENT : Nat := 4
def KERN_FAILURE : Nat := 5

/-- Pointwise update of a kernel table indexed by natural numbers. -/
def upd {β : Type} (f : Nat → β) (a : Nat) (v : β) : Nat → β :=
  fun x => if x = a then v else f x

/-! ## Kernel state -/

/-- One kernel call, with the arguments that matter and, for calls that hand a
value back, that value. -/
inductive Call where
  | mach_port_allocate (name : Nat)
  | mach_port_insert_right (name : Nat)
  | task_set_bootstrap_port (task port : Nat)
  | task_get_bootstrap_port (task got : Nat)
  | mach_msg_send (remote_port port : Nat)
  | mach_msg_rcv (rcv_name got : Nat)
  | mach_port_deallocate (name : Nat)
  | fork (pid : Int)
  | mach_vm_allocate (task : Nat) (size : Nat)
  | mach_make_memory_entry_64 (task : Nat) (size : Nat) (address : Nat)
  | mach_vm_map (task : Nat) (size : Nat) (port : Nat)
  deriving DecidableEq, Repr

/-- The size argument of a virtual-memory call. -/
def Call.size? : Call → Option Nat
  | .mach_vm_allocate _ size => some size
  | .mach_make_memory_entry_64 _ size _ => some size
  | .mach_vm_map _ size _ => some size
  | _ => none

/-- One entry of the kernel call trace. -/
structure Event where
  caller : Nat
  call : Call
  kr : Nat
  deriving DecidableEq, Repr

/-- One entry of a task's address map: `size` bytes at `base`, backed by the
bytes of memory object `obj` starting at offset `off`. -/
structure Mapping where
  base : Nat
  size : Nat
  obj : Nat
  off : Nat
  deriving DecidableEq, Repr

def Mapping.contains (m : Mapping) (a : Nat) : Bool :=
  decide (m.base ≤ a) && decide (a < m.base + m.size)

def Mapping.overlaps (m : Mapping) (a : Nat) (size : Nat) : Bool :=
  decide (a < m.base + m.size) && decide (m.base < a + size)

/-- What a memory-entry port names: `size` bytes of object `obj` from `off`. -/
structure MemEntry where
  obj : Nat
  off : Nat
  size : Nat
  deriving DecidableEq, Repr

/-- Modelled from the spec: the kernel capability service of §3 and §6 (endpoints
with a message queue, the per-task bootstrap capability, memory objects mapped
into address spaces), which `src/main.cpp` only calls.  Tasks are named by their
task control port. -/
structure Kernel where
  /-- the next unused port identity -/
  nextPort : Nat
  /-- the pid the next successful `fork` hands out -/
  nextPid : Nat
  /-- messages queued at each endpoint, oldest first; a message is the one
  capability it carries -/
  queue : Nat → List Nat
  /-- each task's bootstrap special port -/
  bootstrap : Nat → Nat
  /-- each task's address map, newest mapping first -/
  vm : Nat → List Mapping
  /-- contents of each memory object, one `int` per byte offset -/
  mem : Nat → Nat → Int
  /-- the next unused memory object -/
  nextObj : Nat
  /-- what each memory-entry port names -/
  entry : Nat → Option MemEntry
  /-- all kernel calls so far, oldest first -/
  trace : List Event

def Kernel.log (k : Kernel) (caller : Nat) (c : Call) (kr : Nat) : Kernel :=
  { k with trace := k.trace ++ [⟨caller, c, kr⟩] }

/-- The mapping of `task` that covers address `a`. -/
def Kernel.lookup (k : Kernel) (task : Nat) (a : Nat) : Option Mapping :=
  (k.vm task).find? (fun m => m.contains a)

/-- Load of the `int` at address `a` in the address space of `task`; `none` is a
fault on an unmapped address. -/
def Kernel.readInt (k : Kernel) (task : Nat) (a : Nat) : Option Int :=
  match k.lookup task a with
  | none => none
  | some m => some (k.mem m.obj (a - m.base + m.off))

/-- Store of an `int` at address `a` in the address space of `task`; `none` is a
fault on an unmapped address. -/
def Kernel.writeInt (k : Kernel) (task : Nat) (a : Nat) (v : Int) :
    Option Kernel :=
  match k.lookup task a with
  | none => none
  | some m => some { k with mem := upd k.mem m.obj (upd (k.mem m.obj) (a - m.base + m.off) v) }

/-- The kernel calls made between state `k0` and the later state `k`. -/
def Kernel.since (k0 k : Kernel) : List Event := k.trace.drop k0.trace.length

/-- An empty kernel: no port, no task memory, no call made yet. -/
def Kernel.empty : Kernel :=
  { nextPort := 1, nextPid := 1, queue := fun _ => [], bootstrap := fun _ => MACH_PORT_NULL,
    vm := fun _ => [], mem := fun _ _ => 0, nextObj := 0, entry := fun _ => none, trace := [] }

/-! ## Virtual-memory kernel calls -/

/-- Modelled from the spec: `mach_vm_allocate(task, &address, size, VM_FLAGS_ANYWHERE)`,
"allocates a page-aligned region of that size ... at an address chosen by the
address-space manager".  `choice` is the manager's decision: `none` is a failure,
`some a` places the region at `a`, which has to be free.  The region is backed by
a new zero-filled memory object. -/
def mach_vm_allocate (caller : Nat) (choice : Option Nat)
    (task : Nat) (size : Nat) (k : Kernel) : Nat × Nat × Kernel :=
  match choice with
  | none => (KERN_FAILURE, 0, k.log caller (.mach_vm_allocate task size) KERN_FAILURE)
  | some a =>
    if (k.vm task).any (fun m => m.overlaps a size) then
      (KERN_NO_SPACE, 0, k.log caller (.mach_vm_allocate task size) KERN_NO_SPACE)
    else
      (KERN_SUCCESS, a,
        { k with
          vm := upd k.vm task (⟨a, size, k.nextObj, 0⟩ :: k.vm task)
          mem := upd k.mem k.nextObj (fun _ => 0)
          nextObj := k.nextObj + 1
          trace := k.trace ++ [⟨caller, .mach_vm_allocate task size, KERN_SUCCESS⟩] })

/-- Modelled from the spec: `mach_make_memory_entry_64(task, &size, address, prot, &port, parent)`,
"creates a shared memory object backed exactly by that region ... yielding a
capability to the memory object".  `ok = false` is a failure decided by the
kernel; the call also fails when `address` is not mapped in `task`. -/
def mach_make_memory_entry_64 (caller : Nat) (ok : Bool)
    (task : Nat) (size : Nat) (address : Nat) (k : Kernel) :
    Nat × Nat × Kernel :=
  if ok = false then
    (KERN_FAILURE, MACH_PORT_NULL,
      k.log caller (.mach_make_memory_entry_64 task size address) KERN_FAILURE)
  else
    match k.lookup task address with
    | none =>
      (KERN_INVALID_ADDRESS, MACH_PORT_NULL,
        k.log caller (.mach_make_memory_entry_64 task size address) KERN_INVALID_ADDRESS)
    | some m =>
      (KERN_SUCCESS, k.nextPort,
        { k with
          entry := upd k.entry k.nextPort (some ⟨m.obj, address - m.base + m.off, size⟩)
          nextPort := k.nextPort + 1
          trace := k.trace ++
            [⟨caller, .mach_make_memory_entry_64 task size address, KERN_SUCCESS⟩] })

/-- Modelled from the spec: `mach_vm_map(target, &address, size, 0, VM_FLAGS_ANYWHERE, port, 0,
false, prot, prot, VM_INHERIT_NONE)`, "maps that memory object into the replica's
address space ... at an address chosen by the replica's address-space manager".
`choice` is that manager's decision (`none`: failure); `address` is the caller's
in/out variable, left alone on failure. -/
def mach_vm_map (caller : Nat) (choice : Option Nat)
    (target : Nat) (address : Nat) (size : Nat) (port : Nat)
    (k : Kernel) : Nat × Nat × Kernel :=
  match choice with
  | none => (KERN_FAILURE, address, k.log caller (.mach_vm_map target size port) KERN_FAILURE)
  | some a =>
    match k.entry port with
    | none =>
      (KERN_INVALID_ARGUMENT, address,
        k.log caller (.mach_vm_map target size port) KERN_INVALID_ARGUMENT)
    | some e =>
      if (k.vm target).any (fun m => m.overlaps a size) then
        (KERN_NO_SPACE, address, k.log caller (.mach_vm_map target size port) KERN_NO_SPACE)
      else
        (KERN_SUCCESS, a,
          { k with
            vm := upd k.vm target (⟨a, size, e.obj, e.off⟩ :: k.vm target)
            trace := k.trace ++ [⟨caller, .mach_vm_map target size port, KERN_SUCCESS⟩] })

/-! ## `round_page` -/

/-- The platform page size, `1 << page_shift`. -/
def PAGE_SIZE (page_shift : Nat) : Nat := 2 ^ page_shift

def PAGE_MASK (page_shift : Nat) : Nat := PAGE_SIZE page_shift - 1

/-- Modelled from the spec: the system macro `round_page(x)`, "rounds the requested
size up to the platform's page granularity", computed as `(x + PAGE_MASK) & ~PAGE_MASK`
on 64-bit unsigned values. -/
def round_page (page_shift : Nat) (x : Nat) : Nat :=
  ((x + PAGE_MASK page_shift) % 2 ^ 64) &&& (2 ^ 64 - 1 - PAGE_MASK page_shift)

/-! ## Printed output -/

/-- The lines the program prints, one constructor per format string. -/
inductive Out where
  /-- line 32 -/
  | failed_allocate (size : Nat) (kr : Nat)
  /-- line 42 -/
  | failed_memory_entry (size : Nat) (kr : Nat)
  /-- line 51 -/
  | failed_map (size : Nat) (kr : Nat)
  /-- line 59 -/
  | address (a : Nat)
  /-- line 60 -/
  | child_address (a : Nat)
  /-- line 62 -/
  | create_port (p : Nat)
  /-- line 136 -/
  | running_child
  /-- line 140 -/
  | read_from_parent (a : Nat)
  /-- line 143 -/
  | nothing_to_read
  /-- line 151 -/
  | creating_port
  /-- line 154 -/
  | failed
  /-- line 156 -/
  | succeeded (a : Nat) (content : Int)
  deriving DecidableEq, Repr

/-! ## `CreateThePort` (lines 23-64) -/

/-- What the kernel decides during one call of `CreateThePort`. -/
structure VmChoices where
  allocate : Option Nat
  make_entry : Bool
  map : Option Nat

structure CreateThePortResult where
  /-- the `bool` returned -/
  ret : Bool
  /-- the caller's variable passed by reference -/
  child_address : Nat
  /-- the local `address` -/
  address : Nat
  /-- the local `port` -/
  port : Nat
  out : List Out
  k : Kernel
  /-- the store `buf[0] = 42` faulted -/
  crashed : Bool

/-- Body of `CreateThePort`, lines 26-63, with the local `size` (line 28) as an
argument.  `self` is `mach_task_self()`, `child_task` the global of line 20,
`child_address` the reference argument. -/
def CreateThePortWithSize (page_shift : Nat) (size : Nat) (self child_task : Nat)
    (o : VmChoices) (child_address : Nat) (k : Kernel) : CreateThePortResult :=
  match mach_vm_allocate self o.allocate self (round_page page_shift size) k with
  | (kr, address, k1) =>
    if kr ≠ KERN_SUCCESS then
      ⟨false, child_address, address, MACH_PORT_NULL, [.failed_allocate size kr], k1, false⟩
    else
      let memoryObjectSize := round_page page_shift size
      match mach_make_memory_entry_64 self o.make_entry self memoryObjectSize address k1 with
      | (kr, port, k2) =>
        if kr ≠ KERN_SUCCESS then
          ⟨false, child_address, address, port, [.failed_memory_entry size kr], k2, false⟩
        else
          match mach_vm_map self o.map child_task child_address (round_page page_shift size)
              port k2 with
          | (kr, child_address, k3) =>
            if kr ≠ KERN_SUCCESS then
              ⟨false, child_address, address, port, [.failed_map size kr], k3, false⟩
            else
              match k3.writeInt self address 42 with
              | none => ⟨false, child_address, address, port, [], k3, true⟩
              | some k4 =>
                ⟨true, child_address, address, port,
                  [.address address, .child_address child_address, .create_port port], k4,
                  false⟩

/-- `CreateThePort` as in the source: `size_t size = 8000` (line 28). -/
def CreateThePort (page_shift : Nat) (self child_task : Nat)
    (o : VmChoices) (child_address : Nat) (k : Kernel) : CreateThePortResult :=
  CreateThePortWithSize page_shift 8000 self child_task o child_address k

/-- The call of line 30 as `CreateThePortWithSize` makes it. -/
def line30 (page_shift size self : Nat) (o : VmChoices) (k : Kernel) : Nat × Nat × Kernel :=
  mach_vm_allocate self o.allocate self (round_page page_shift size) k

/-- The call of line 40, made after the call of line 30 succeeded. -/
def line40 (page_shift size self : Nat) (o : VmChoices) (k : Kernel) : Nat × Nat × Kernel :=
  mach_make_memory_entry_64 self o.make_entry self (round_page page_shift size)
    (line30 page_shift size self o k).2.1 (line30 page_shift size self o k).2.2

/-- The call of line 48, made after the call of line 40 succeeded. -/
def line48 (page_shift size self child_task : Nat) (o : VmChoices) (ca : Nat) (k : Kernel) :
    Nat × Nat × Kernel :=
  mach_vm_map self o.map child_task ca (round_page page_shift size)
    (line40 page_shift size self o k).2.1 (line40 page_shift size self o k).2.2

/-! ## `RunChildProcess` and `RunParentProcess` (lines 133-159) -/

/-- The value of `child_address` after `read(fd, &child_address, 8)` returned `r`:
the low `r` bytes come from the pipe (`data`), the others keep what the
uninitialised variable held (`garbage`); little-endian. -/
def after_read (r : Int) (data garbage : Nat) : Nat :=
  if 0 < r then data % 256 ^ r.toNat + garbage / 256 ^ r.toNat * 256 ^ r.toNat else garbage

/-- `RunChildProcess`, lines 136-144.  `r` is what `read` returned (a byte count or
`-1`), converted to `size_t` by the initialisation of `numRead`. -/
def RunChildProcess (r : Int) (data garbage : Nat) : List Out :=
  let child_address := after_read r data garbage
  let numRead : Nat := (r % 2 ^ 64).toNat
  if numRead > 0 then
    [.running_child, .read_from_parent child_address]
  else
    [.running_child, .nothing_to_read]

structure RunParentResult where
  out : List Out
  /-- the eight bytes passed to `write` -/
  written : Option Nat
  k : Kernel
  /-- the process faulted -/
  crashed : Bool

/-- `RunParentProcess`, lines 151-158.  The `content` printed at line 156 is the
`int` loaded from `child_address` by the calling process, `self`. -/
def RunParentProcess (page_shift : Nat) (self child_task : Nat)
    (o : VmChoices) (child_address : Nat) (k : Kernel) : RunParentResult :=
  let r := CreateThePort page_shift self child_task o child_address k
  if r.crashed then ⟨.creating_port :: r.out, none, r.k, true⟩
  else if r.ret = false then
    ⟨.creating_port :: (r.out ++ [.failed]), some r.child_address, r.k, false⟩
  else
    match r.k.readInt self r.child_address with
    | none => ⟨.creating_port :: r.out, none, r.k, true⟩
    | some content =>
      ⟨.creating_port :: (r.out ++ [.succeeded r.child_address content]),
        some r.child_address, r.k, false⟩

/-! ## Port and task kernel calls

`fail = true` is a failure decided by the kernel; a failed call changes nothing
but the trace. -/

/-- Modelled from the spec: `mach_port_allocate(mach_task_self(), MACH_PORT_RIGHT_RECEIVE, &name)`,
"allocate a receive-capable endpoint": a new endpoint with an empty queue. -/
def mach_port_allocate (caller : Nat) (fail : Bool) (k : Kernel) :
    Nat × Nat × Kernel :=
  if fail then
    (KERN_FAILURE, MACH_PORT_NULL, k.log caller (.mach_port_allocate MACH_PORT_NULL) KERN_FAILURE)
  else
    (KERN_SUCCESS, k.nextPort,
      { k with
        nextPort := k.nextPort + 1
        queue := upd k.queue k.nextPort []
        trace := k.trace ++ [⟨caller, .mach_port_allocate k.nextPort, KERN_SUCCESS⟩] })

/-- Modelled from the spec: `mach_port_insert_right(mach_task_self(), name, name, MACH_MSG_TYPE_MAKE_SEND)`,
"insert a send right for it". -/
def mach_port_insert_right (caller : Nat) (fail : Bool) (name : Nat)
    (k : Kernel) : Nat × Kernel :=
  if fail then (KERN_FAILURE, k.log caller (.mach_port_insert_right name) KERN_FAILURE)
  else (KERN_SUCCESS, k.log caller (.mach_port_insert_right name) KERN_SUCCESS)

/-- Modelled from the spec: `task_set_bootstrap_port(task, port)`, "install a process's bootstrap
capability". -/
def task_set_bootstrap_port (caller : Nat) (fail : Bool) (task port : Nat)
    (k : Kernel) : Nat × Kernel :=
  if fail then (KERN_FAILURE, k.log caller (.task_set_bootstrap_port task port) KERN_FAILURE)
  else
    (KERN_SUCCESS,
      { k with
        bootstrap := upd k.bootstrap task port
        trace := k.trace ++ [⟨caller, .task_set_bootstrap_port task port, KERN_SUCCESS⟩] })

/-- Modelled from the spec: `task_get_bootstrap_port(task, &port)`, "obtain a process's bootstrap
capability"; `port` is the caller's variable, left alone on failure. -/
def task_get_bootstrap_port (caller : Nat) (fail : Bool) (task port : Nat)
    (k : Kernel) : Nat × Nat × Kernel :=
  if fail then
    (KERN_FAILURE, port, k.log caller (.task_get_bootstrap_port task MACH_PORT_NULL) KERN_FAILURE)
  else
    (KERN_SUCCESS, k.bootstrap task,
      k.log caller (.task_get_bootstrap_port task (k.bootstrap task)) KERN_SUCCESS)

/-- Modelled from the spec: `mach_msg_send` of a message with one port descriptor: the capability
`port` is appended to the queue of endpoint `remote_port`; the call never waits. -/
def mach_msg_send (caller : Nat) (fail : Bool) (remote_port port : Nat)
    (k : Kernel) : Nat × Kernel :=
  if fail then (KERN_FAILURE, k.log caller (.mach_msg_send remote_port port) KERN_FAILURE)
  else
    (KERN_SUCCESS,
      { k with
        queue := upd k.queue remote_port (k.queue remote_port ++ [port])
        trace := k.trace ++ [⟨caller, .mach_msg_send remote_port port, KERN_SUCCESS⟩] })

/-- Modelled from the spec: `mach_msg(.., MACH_RCV_MSG, .., rcv_name, MACH_MSG_TIMEOUT_NONE, ..)`:
takes the oldest message queued at `rcv_name` and hands back the capability it
carries.  `none`: the queue is empty and the caller stays blocked. -/
def mach_msg_rcv (caller : Nat) (fail : Bool) (rcv_name : Nat) (k : Kernel) :
    Option (Nat × Nat × Kernel) :=
  if fail then
    some (KERN_FAILURE, MACH_PORT_NULL,
      k.log caller (.mach_msg_rcv rcv_name MACH_PORT_NULL) KERN_FAILURE)
  else
    match k.queue rcv_name with
    | [] => none
    | m :: rest =>
      some (KERN_SUCCESS, m,
        { k with
          queue := upd k.queue rcv_name rest
          trace := k.trace ++ [⟨caller, .mach_msg_rcv rcv_name m, KERN_SUCCESS⟩] })

/-- Modelled from the spec: `mach_port_deallocate(mach_task_self(), name)`: releases the caller's
send right `name`. -/
def mach_port_deallocate (caller : Nat) (fail : Bool) (name : Nat)
    (k : Kernel) : Nat × Kernel :=
  if fail then (KERN_FAILURE, k.log caller (.mach_port_deallocate name) KERN_FAILURE)
  else (KERN_SUCCESS, k.log caller (.mach_port_deallocate name) KERN_SUCCESS)

/-- Modelled from the spec: `fork()`, "duplicate the current process, returning distinguishable
originator/replica control flow".  Gives the pid handed to the caller (`-1`:
failure) and the task control port of the new task, which "inherits the
bootstrap capability its originator held at the instant of duplication".  The
copy of the address space is not modelled. -/
def fork (caller : Nat) (fail : Bool) (k : Kernel) : Int × Nat × Kernel :=
  if fail then (-1, MACH_PORT_NULL, k.log caller (.fork (-1)) KERN_FAILURE)
  else
    ((k.nextPid : Int), k.nextPort,
      { k with
        nextPort := k.nextPort + 1
        nextPid := k.nextPid + 1
        bootstrap := upd k.bootstrap k.nextPort (k.bootstrap caller)
        trace := k.trace ++ [⟨caller, .fork (k.nextPid : Int), KERN_SUCCESS⟩] })

/-! ## `send_port` and `recv_port` (lines 85-131) -/

/-- `send_port`, lines 96-110. -/
def send_port (caller : Nat) (fail : Bool) (remote_port port : Nat)
    (k : Kernel) : Int × Kernel :=
  match mach_msg_send caller fail remote_port port k with
  | (err, k1) => if err ≠ KERN_SUCCESS then (-1, k1) else (0, k1)

/-- `recv_port`, lines 124-130; `port` is the caller's variable behind the pointer,
written only on success.  `none`: blocked in `mach_msg`. -/
def recv_port (caller : Nat) (fail : Bool) (recv_port port : Nat)
    (k : Kernel) : Option (Int × Nat × Kernel) :=
  match mach_msg_rcv caller fail recv_port k with
  | none => none
  | some (err, name, k1) => if err ≠ KERN_SUCCESS then some (-1, port, k1) else some (0, name, k1)

/-- `setup_recv_port`, lines 69-82, run in one piece; `recv_port` is the caller's
variable behind the pointer, written only on success.  In `sampling_fork_step`
its two kernel calls are the program points `L71` and `L75`. -/
def setup_recv_port (caller : Nat) (fail71 fail75 : Bool) (recv_port : Nat) (k : Kernel) :
    Int × Nat × Kernel :=
  match mach_port_allocate caller fail71 k with
  | (err, port, k1) =>
    if err ≠ KERN_SUCCESS then (-1, recv_port, k1)
    else
      match mach_port_insert_right caller fail75 port k1 with
      | (err, k2) => if err ≠ KERN_SUCCESS then (-1, recv_port, k2) else (0, port, k2)

/-! ## `sampling_fork` (lines 161-208) -/

/-- Which call of `setup_recv_port` is running: line 168 or line 182. -/
inductive Site where
  | line168
  | line182
  deriving DecidableEq, Repr

/-- Program points of `sampling_fork`, named by the source line of the kernel
call made next; `L71` and `L75` are the two calls inside `setup_recv_port`. -/
inductive PC where
  | L71 (site : Site)
  | L75 (site : Site)
  | L170
  | L174
  | L176
  | L180
  | L184
  | L186
  | L188
  | L190
  | L194
  | L196
  | L198
  | L200
  | L202
  | returned (v : Int)
  deriving DecidableEq, Repr

/-- The user-space variables of one process that `sampling_fork` touches. -/
structure Proc where
  /-- `mach_task_self()` -/
  self : Nat
  /-- the global `bootstrap_port` of the runtime -/
  bootstrap_port : Nat
  /-- the global of line 20 -/
  child_task : Nat
  /-- local, line 165 -/
  parent_recv_port : Nat
  /-- local, line 166 -/
  child_recv_port : Nat
  /-- local `port` of `setup_recv_port`, line 70 -/
  port : Nat
  /-- local, line 173 -/
  pid : Int
  pc : PC
  deriving DecidableEq, Repr

/-- The target of `switch (pid = fork ())`, line 174. -/
def switch_pid (pid : Int) : PC :=
  if pid = -1 then .L176 else if pid = 0 then .L180 else .L194

/-- One kernel call of `sampling_fork` by process `p`.  `none`: `p` has returned
or is blocked in a receive.  The third component is the process created by a
successful `fork`: a copy of `p` with its own task port, in which `fork`
returned 0 and the port names copied from `p` denote nothing. -/
def sampling_fork_step (fail : Bool) (p : Proc) (k : Kernel) :
    Option (Proc × Kernel × Option Proc) :=
  match p.pc with
  | .L71 site =>
    match mach_port_allocate p.self fail k with
    | (err, port, k1) =>
      if err ≠ KERN_SUCCESS then some ({ p with port := port, pc := .returned (-1) }, k1, none)
      else some ({ p with port := port, pc := .L75 site }, k1, none)
  | .L75 site =>
    match mach_port_insert_right p.self fail p.port k with
    | (err, k1) =>
      if err ≠ KERN_SUCCESS then some ({ p with pc := .returned (-1) }, k1, none)
      else
        match site with
        | .line168 => some ({ p with parent_recv_port := p.port, pc := .L170 }, k1, none)
        | .line182 => some ({ p with child_recv_port := p.port, pc := .L184 }, k1, none)
  | .L170 =>
    match task_set_bootstrap_port p.self fail p.self p.parent_recv_port k with
    | (err, k1) =>
      if err ≠ KERN_SUCCESS then some ({ p with pc := .returned (-1) }, k1, none)
      else some ({ p with pc := .L174 }, k1, none)
  | .L174 =>
    match fork p.self fail k with
    | (pid, child_self, k1) =>
      if pid = -1 then some ({ p with pid := pid, pc := switch_pid pid }, k1, none)
      else
        some ({ p with pid := pid, pc := switch_pid pid }, k1,
          some { self := child_self, bootstrap_port := MACH_PORT_NULL,
                 child_task := MACH_PORT_NULL, parent_recv_port := MACH_PORT_NULL,
                 child_recv_port := MACH_PORT_NULL, port := MACH_PORT_NULL,
                 pid := 0, pc := switch_pid 0 })
  | .L176 =>
    match mach_port_deallocate p.self fail p.parent_recv_port k with
    | (err, k1) =>
      if err ≠ KERN_SUCCESS then some ({ p with pc := .returned (-1) }, k1, none)
      else some ({ p with pc := .returned p.pid }, k1, none)
  | .L180 =>
    match task_get_bootstrap_port p.self fail p.self p.parent_recv_port k with
    | (err, port, k1) =>
      if err ≠ KERN_SUCCESS then
        some ({ p with parent_recv_port := port, pc := .returned (-1) }, k1, none)
      else some ({ p with parent_recv_port := port, pc := .L71 .line182 }, k1, none)
  | .L184 =>
    match send_port p.self fail p.parent_recv_port p.self k with
    | (r, k1) =>
      if r ≠ 0 then some ({ p with pc := .returned (-1) }, k1, none)
      else some ({ p with pc := .L186 }, k1, none)
  | .L186 =>
    match send_port p.self fail p.parent_recv_port p.child_recv_port k with
    | (r, k1) =>
      if r ≠ 0 then some ({ p with pc := .returned (-1) }, k1, none)
      else some ({ p with pc := .L188 }, k1, none)
  | .L188 =>
    match recv_port p.self fail p.child_recv_port p.bootstrap_port k with
    | none => none
    | some (r, port, k1) =>
      if r ≠ 0 then some ({ p with bootstrap_port := port, pc := .returned (-1) }, k1, none)
      else some ({ p with bootstrap_port := port, pc := .L190 }, k1, none)
  | .L190 =>
    match task_set_bootstrap_port p.self fail p.self p.bootstrap_port k with
    | (err, k1) =>
      if err ≠ KERN_SUCCESS then some ({ p with pc := .returned (-1) }, k1, none)
      else some ({ p with pc := .returned p.pid }, k1, none)
  | .L194 =>
    match task_set_bootstrap_port p.self fail p.self p.bootstrap_port k with
    | (err, k1) =>
      if err ≠ KERN_SUCCESS then some ({ p with pc := .returned (-1) }, k1, none)
      else some ({ p with pc := .L196 }, k1, none)
  | .L196 =>
    match recv_port p.self fail p.parent_recv_port p.child_task k with
    | none => none
    | some (r, port, k1) =>
      if r ≠ 0 then some ({ p with child_task := port, pc := .returned (-1) }, k1, none)
      else some ({ p with child_task := port, pc := .L198 }, k1, none)
  | .L198 =>
    match recv_port p.self fail p.parent_recv_port p.child_recv_port k with
    | none => none
    | some (r, port, k1) =>
      if r ≠ 0 then some ({ p with child_recv_port := port, pc := .returned (-1) }, k1, none)
      else some ({ p with child_recv_port := port, pc := .L200 }, k1, none)
  | .L200 =>
    match send_port p.self fail p.child_recv_port p.bootstrap_port k with
    | (r, k1) =>
      if r ≠ 0 then some ({ p with pc := .returned (-1) }, k1, none)
      else some ({ p with pc := .L202 }, k1, none)
  | .L202 =>
    match mach_port_deallocate p.self fail p.parent_recv_port k with
    | (err, k1) =>
      if err ≠ KERN_SUCCESS then some ({ p with pc := .returned (-1) }, k1, none)
      else some ({ p with pc := .returned p.pid }, k1, none)
  | .returned _ => none

/-- Process `p` makes its next call and, unless that made it return, one more. -/
def twoCalls (fail1 fail2 : Bool) (p : Proc) (k : Kernel) : Option (Proc × Kernel) :=
  match sampling_fork_step fail1 p k with
  | none => none
  | some (p1, k1, _) =>
    match p1.pc with
    | .returned _ => some (p1, k1)
    | _ =>
      match sampling_fork_step fail2 p1 k1 with
      | none => none
      | some (p2, k2, _) => some (p2, k2)

/-! ## The two processes -/

/-- The pre-existing process, and the process `fork` created, if any. -/
structure Sys where
  k : Kernel
  parent : Proc
  child : Option Proc

inductive Who where
  | parent
  | child
  deriving DecidableEq, Repr

/-- One step of one process; `none` when that process cannot move. -/
def step (who : Who) (fail : Bool) (s : Sys) : Option Sys :=
  match who with
  | .parent =>
    match sampling_fork_step fail s.parent s.k with
    | none => none
    | some (p, k1, born) =>
      some { k := k1, parent := p, child := match born with | some c => some c | none => s.child }
  | .child =>
    match s.child with
    | none => none
    | some c =>
      match sampling_fork_step fail c s.k with
      | none => none
      | some (c1, k1, _) => some { k := k1, parent := s.parent, child := some c1 }

/-- A process can move without a kernel call failing. -/
def enabled (who : Who) (s : Sys) : Bool := (step who false s).isSome

/-- A schedule: who moves next, and whether the kernel call made fails. -/
abbrev Schedule := List (Who × Bool)

/-- Runs a schedule; a turn given to a process that cannot move is skipped. -/
def run : Schedule → Sys → Sys
  | [], s => s
  | (who, fail) :: rest, s =>
    match step who fail s with
    | none => run rest s
    | some s1 => run rest s1

/-- No kernel call of the schedule fails. -/
def noFail (sched : Schedule) : Bool := sched.all (fun t => !t.2)

/-- The state in which the pre-existing process, whose task port is `self` and
whose runtime global `bootstrap_port` holds `b`, calls `sampling_fork`
(lines 165-166 executed). -/
def initial (k : Kernel) (self b : Nat) : Sys :=
  { k := k
    parent := { self := self, bootstrap_port := b, child_task := MACH_PORT_NULL,
                parent_recv_port := MACH_PORT_NULL, child_recv_port := MACH_PORT_NULL,
                port := MACH_PORT_NULL, pid := 0, pc := .L71 .line168 }
    child := none }

/-! ## `main` (lines 210-221) -/

inductive Role where
  | RunChildProcess
  | RunParentProcess
  deriving DecidableEq, Repr

/-- The branch `main` takes on the value `sampling_fork` returned (lines 215-219). -/
def main_branch (subprocessId : Int) : Role :=
  if subprocessId = 0 then .RunChildProcess else .RunParentProcess

/-- The branch of `main` a process takes once its `sampling_fork` has returned. -/
def role (p : Proc) : Option Role :=
  match p.pc with
  | .returned v => some (main_branch v)
  | _ => none

/-! ## The runs of `sampling_fork` in which no kernel call fails

The pre-existing process passes through ten program points and the new process
through eight; `i` and `j` count the kernel calls each has completed (`j = 0`:
not yet created).  `n` is the first unused port identity at the call of
`sampling_fork`, so that the endpoint of line 168 is `n`, the task port of the
new process `n + 1` and the endpoint of line 182 `n + 2`. -/

def parentPC (pid : Int) : Nat → PC
  | 0 => .L71 .line168
  | 1 => .L75 .line168
  | 2 => .L170
  | 3 => .L174
  | 4 => .L194
  | 5 => .L196
  | 6 => .L198
  | 7 => .L200
  | 8 => .L202
  | _ => .returned pid

def childPC : Nat → PC
  | 0 => .L180
  | 1 => .L180
  | 2 => .L71 .line182
  | 3 => .L75 .line182
  | 4 => .L184
  | 5 => .L186
  | 6 => .L188
  | 7 => .L190
  | _ => .returned 0

/-- The variables of the pre-existing process after `i` calls. -/
def parentAt (self b n : Nat) (pid : Int) (i : Nat) : Proc :=
  { self := self
    bootstrap_port := b
    child_task := if 6 ≤ i then n + 1 else MACH_PORT_NULL
    parent_recv_port := if 2 ≤ i then n else MACH_PORT_NULL
    child_recv_port := if 7 ≤ i then n + 2 else MACH_PORT_NULL
    port := if 1 ≤ i then n else MACH_PORT_NULL
    pid := if 4 ≤ i then pid else 0
    pc := parentPC pid i }

/-- The variables of the new process after `j - 1` calls. -/
def childAt (b n : Nat) (j : Nat) : Option Proc :=
  if j = 0 then none
  else
    some
      { self := n + 1
        bootstrap_port := if 7 ≤ j then b else MACH_PORT_NULL
        child_task := MACH_PORT_NULL
        parent_recv_port := if 2 ≤ j then n else MACH_PORT_NULL
        child_recv_port := if 4 ≤ j then n + 2 else MACH_PORT_NULL
        port := if 3 ≤ j then n + 2 else MACH_PORT_NULL
        pid := 0
        pc := childPC j }

/-- The kernel calls of the pre-existing process, in order. -/
def parentCalls (self b n : Nat) (pid : Int) : List Event :=
  [⟨self, .mach_port_allocate n, KERN_SUCCESS⟩,
   ⟨self, .mach_port_insert_right n, KERN_SUCCESS⟩,
   ⟨self, .task_set_bootstrap_port self n, KERN_SUCCESS⟩,
   ⟨self, .fork pid, KERN_SUCCESS⟩,
   ⟨self, .task_set_bootstrap_port self b, KERN_SUCCESS⟩,
   ⟨self, .mach_msg_rcv n (n + 1), KERN_SUCCESS⟩,
   ⟨self, .mach_msg_rcv n (n + 2), KERN_SUCCESS⟩,
   ⟨self, .mach_msg_send (n + 2) b, KERN_SUCCESS⟩,
   ⟨self, .mach_port_deallocate n, KERN_SUCCESS⟩]

/-- The kernel calls of the new process, in order. -/
def childCalls (b n : Nat) : List Event :=
  [⟨n + 1, .task_get_bootstrap_port (n + 1) n, KERN_SUCCESS⟩,
   ⟨n + 1, .mach_port_allocate (n + 2), KERN_SUCCESS⟩,
   ⟨n + 1, .mach_port_insert_right (n + 2), KERN_SUCCESS⟩,
   ⟨n + 1, .mach_msg_send n (n + 1), KERN_SUCCESS⟩,
   ⟨n + 1, .mach_msg_send n (n + 2), KERN_SUCCESS⟩,
   ⟨n + 1, .mach_msg_rcv (n + 2) b, KERN_SUCCESS⟩,
   ⟨n + 1, .task_set_bootstrap_port (n + 1) b, KERN_SUCCESS⟩]

/-- The calls of a trace made by task `t`, in order. -/
def callsBy (t : Nat) (tr : List Event) : List Event :=
  tr.filter (fun e => decide (e.caller = t))

/-- Messages the new process has sent after `j - 1` calls. -/
def sent (j : Nat) : Nat := if 6 ≤ j then 2 else if 5 ≤ j then 1 else 0

/-- Messages the pre-existing process has received after `i` calls. -/
def rcvd (i : Nat) : Nat := if 7 ≤ i then 2 else if 6 ≤ i then 1 else 0

/-- The states of the runs without a failing call: `s` is the state after the
pre-existing process made `i` calls and the new one `j - 1`, the calls made
since the start being `t`. -/
structure Inv (k0 : Kernel) (self b : Nat) (s : Sys) (i j : Nat) (t : List Event) : Prop where
  hi : i ≤ 9
  hj : j ≤ 8
  born : j = 0 ↔ i ≤ 3
  order1 : 6 ≤ i → 5 ≤ j
  order2 : 7 ≤ i → 6 ≤ j
  reply : 7 ≤ j → 8 ≤ i
  parent : s.parent = parentAt self b k0.nextPort k0.nextPid i
  child : s.child = childAt b k0.nextPort j
  nextPort : s.k.nextPort = k0.nextPort + (if 1 ≤ i then 1 else 0) + (if 4 ≤ i then 1 else 0)
    + (if 3 ≤ j then 1 else 0)
  nextPid : s.k.nextPid = k0.nextPid + (if 4 ≤ i then 1 else 0)
  bootstrap_parent : s.k.bootstrap self
    = if i ≤ 2 then k0.bootstrap self else if i ≤ 4 then k0.nextPort else b
  bootstrap_child : 1 ≤ j → s.k.bootstrap (k0.nextPort + 1) = if j ≤ 7 then k0.nextPort else b
  queue_o : 1 ≤ i →
    s.k.queue k0.nextPort = ([k0.nextPort + 1, k0.nextPort + 2].take (sent j)).drop (rcvd i)
  queue_r : 3 ≤ j → s.k.queue (k0.nextPort + 2) = if 8 ≤ i ∧ j ≤ 6 then [b] else []
  trace : s.k.trace = k0.trace ++ t
  calls_parent : callsBy self t = (parentCalls self b k0.nextPort k0.nextPid).take i
  calls_child : callsBy (k0.nextPort + 1) t = (childCalls b k0.nextPort).take (j - 1)

/-! ## Vocabulary of the rendezvous properties -/

/-- The messages sent in a trace, as (destination, capability), in order. -/
def sends : List Event → List (Nat × Nat)
  | [] => []
  | ⟨_, .mach_msg_send remote_port port, _⟩ :: rest => (remote_port, port) :: sends rest
  | _ :: rest => sends rest

/-- The messages received in a trace, as (endpoint, capability), in order. -/
def receives : List Event → List (Nat × Nat)
  | [] => []
  | ⟨_, .mach_msg_rcv rcv_name got, _⟩ :: rest => (rcv_name, got) :: receives rest
  | _ :: rest => receives rest

/-- The first receive of the originator (line 196) has returned. -/
def PC.past196 : PC → Bool
  | .L198 => true
  | .L200 => true
  | .L202 => true
  | .returned _ => true
  | _ => false

/-- The second receive of the originator (line 198) has returned. -/
def PC.past198 : PC → Bool
  | .L200 => true
  | .L202 => true
  | .returned _ => true
  | _ => false

/-- The send of the originator (line 200) has returned. -/
def PC.past200 : PC → Bool
  | .L202 => true
  | .returned _ => true
  | _ => false

/-- Process `p` waits in `mach_msg` on an empty queue. -/
def blocked (p : Proc) (k : Kernel) : Bool :=
  match p.pc with
  | .L188 => (k.queue p.child_recv_port).isEmpty
  | .L196 => (k.queue p.parent_recv_port).isEmpty
  | .L198 => (k.queue p.parent_recv_port).isEmpty
  | _ => false

/-- The completed state of the rendezvous, for a run started in kernel state `k0`:
both calls of `sampling_fork` have returned, the new process 0 and the
pre-existing one the pid `fork` gave it; the bootstrap port of the new task is the
capability the pre-existing process forwarded (its `bootstrap_port`), received
at line 188; `child_task` of the pre-existing process is the task port of the new
one; and the pre-existing process has released its right to the endpoint of
line 168. -/
def completed (k0 : Kernel) (s : Sys) : Bool :=
  match s.child with
  | none => false
  | some c =>
    decide (c.pc = .returned 0) && decide (s.parent.pc = .returned s.parent.pid) &&
    decide (s.parent.pid ≠ 0) &&
    decide (s.k.bootstrap c.self = s.parent.bootstrap_port) &&
    decide (c.bootstrap_port = s.parent.bootstrap_port) &&
    decide (s.parent.child_task = c.self) &&
    decide ((⟨s.parent.self, .mach_port_deallocate s.parent.parent_recv_port, KERN_SUCCESS⟩
      : Event) ∈ k0.since s.k)

/-! ## Return values in arbitrary runs, failing calls included -/

/-- In the pre-existing process `sampling_fork` is at a program point of its own
path, holds a non-zero `pid` once `fork` has succeeded, and returns a non-zero
value. -/
def parentOK (p : Proc) : Prop :=
  match p.pc with
  | .returned v => v ≠ 0
  | .L71 .line168 => True
  | .L75 .line168 => True
  | .L170 => True
  | .L174 => True
  | .L176 => p.pid = -1
  | .L194 => p.pid ≠ 0 ∧ p.pid ≠ -1
  | .L196 => p.pid ≠ 0 ∧ p.pid ≠ -1
  | .L198 => p.pid ≠ 0 ∧ p.pid ≠ -1
  | .L200 => p.pid ≠ 0 ∧ p.pid ≠ -1
  | .L202 => p.pid ≠ 0 ∧ p.pid ≠ -1
  | _ => False

/-- In the new process `sampling_fork` is at a program point of the child path
with `pid = 0`, and returns 0 or -1. -/
def childOK (c : Proc) : Prop :=
  c.pid = 0 ∧
  match c.pc with
  | .returned v => v = 0 ∨ v = -1
  | .L180 => True
  | .L71 .line182 => True
  | .L75 .line182 => True
  | .L184 => True
  | .L186 => True
  | .L188 => True
  | .L190 => True
  | _ => False

/-- The two conditions above, for a state of the two processes. -/
def rolesOK (s : Sys) : Prop :=
  0 < s.k.nextPid ∧ parentOK s.parent ∧ ∀ c, s.child = some c → childOK c

/-! ## Concrete inputs -/

/-- A kernel with ports 1 to 9 in use, in which task 5 holds port 7 as its
bootstrap port. -/
def Kernel.demo : Kernel :=
  { Kernel.empty with nextPort := 10, bootstrap := fun t => if t = 5 then 7 else MACH_PORT_NULL }

/-- A kernel in which task `self` already has one page mapped at `a`, holding `v`
in its first `int`. -/
def Kernel.withPage (self a : Nat) (v : Int) : Kernel :=
  match (mach_vm_allocate self (some a) self 4096 Kernel.empty).2.2.writeInt self a v with
  | some k => { k with trace := [] }
  | none => Kernel.empty

/-- The two processes take turns, no call fails. -/
def roundRobin : Schedule :=
  (List.replicate 12 [(Who.parent, false), (Who.child, false)]).flatten

/-- Every call succeeds except the last call of the new process
(`task_set_bootstrap_port`, line 190), made after the pre-existing process has
returned. -/
def lastChildCallFails : Schedule :=
  [(Who.parent, false), (Who.parent, false), (Who.parent, false), (Who.parent, false),
   (Who.child, false), (Who.child, false), (Who.child, false), (Who.child, false),
   (Who.child, false),
   (Who.parent, false), (Who.parent, false), (Who.parent, false), (Who.parent, false),
   (Who.parent, false),
   (Who.child, false), (Who.child, true)]

/-- The first three calls succeed, `fork` fails, the release of line 176 succeeds. -/
def forkFails : Schedule :=
  [(Who.parent, false), (Who.parent, false), (Who.parent, false), (Who.parent, true),
   (Who.parent, false)]

/-- Every call succeeds up to the first receive of the pre-existing process
(line 196), which fails. -/
def firstReceiveFails : Schedule :=
  [(Who.parent, false), (Who.parent, false), (Who.parent, false), (Who.parent, false),
   (Who.parent, false), (Who.parent, true)]

/-! ## `round_page` and `CreateThePort`: lemmas -/

theorem land_clear_low (p s : Nat) (hp : p ≤ 64) (hs : s < 2 ^ 64) :
    s &&& (2 ^ 64 - 1 - (2 ^ p - 1)) = s - s % 2 ^ p := by
  have h1 : 2 ^ 64 - 1 - (2 ^ p - 1) = (2 ^ (64 - p) - 1) <<< p := by
    rw [Nat.shiftLeft_eq, Nat.sub_mul, ← pow_add, Nat.sub_add_cancel hp]
    have : 1 ≤ 2 ^ p := Nat.one_le_two_pow
    omega
  have h2 : s - s % 2 ^ p = (s >>> p) <<< p := by
    rw [Nat.shiftLeft_eq, Nat.shiftRight_eq_div_pow]
    have := Nat.div_add_mod s (2 ^ p)
    rw [Nat.mul_comm] at this
    omega
  rw [h1, h2]
  apply Nat.eq_of_testBit_eq
  intro i
  simp only [Nat.testBit_and, Nat.testBit_shiftLeft, Nat.testBit_shiftRight,
    Nat.testBit_two_pow_sub_one]
  by_cases hi : p ≤ i
  · by_cases h64 : i < 64
    · have : i - p < 64 - p := by omega
      simp [hi, this]
    · have : ¬ (i - p < 64 - p) := by omega
      simp only [hi, this, ge_iff_le, decide_True, decide_False, Bool.and_false,
        Bool.true_and, Bool.false_and]
      simp
      apply Nat.testBit_eq_false_of_lt
      calc s < 2 ^ 64 := hs
        _ ≤ 2 ^ (p + (i - p)) := Nat.pow_le_pow_right (by norm_num) (by omega)
  · simp [hi]

theorem page_shift_le (page_shift x : Nat) (h : x + PAGE_MASK page_shift < 2 ^ 64) :
    page_shift ≤ 64 := by
  by_contra hc
  have h1 : 2 ^ 65 ≤ 2 ^ page_shift := Nat.pow_le_pow_right (by norm_num) (by omega)
  unfold PAGE_MASK PAGE_SIZE at h
  omega

theorem round_page_eq (page_shift x : Nat) (h : x + PAGE_MASK page_shift < 2 ^ 64) :
    round_page page_shift x
      = (x + PAGE_MASK page_shift) - (x + PAGE_MASK page_shift) % PAGE_SIZE page_shift := by
  have hp := page_shift_le page_shift x h
  unfold round_page
  rw [Nat.mod_eq_of_lt h]
  exact land_clear_low page_shift _ hp h

theorem round_page_spec (page_shift x : Nat) (h : x + PAGE_MASK page_shift < 2 ^ 64) :
    PAGE_SIZE page_shift ∣ round_page page_shift x ∧ x ≤ round_page page_shift x ∧
      round_page page_shift x < x + PAGE_SIZE page_shift := by
  rw [round_page_eq page_shift x h]
  have hP : 0 < PAGE_SIZE page_shift := Nat.two_pow_pos page_shift
  have hm : PAGE_MASK page_shift = PAGE_SIZE page_shift - 1 := rfl
  have hlt := Nat.mod_lt (x + PAGE_MASK page_shift) hP
  refine ⟨?_, by omega, by omega⟩
  exact Nat.dvd_sub_mod _

theorem since_append (k0 k : Kernel) (evs : List Event) (h : k.trace = k0.trace ++ evs) :
    k0.since k = evs := by
  simp [Kernel.since, h]

theorem mach_vm_allocate_cases (c : Nat) (ch : Option Nat)
    (t : Nat) (sz : Nat) (k : Kernel) :
    (∃ kr, kr ≠ KERN_SUCCESS ∧
      mach_vm_allocate c ch t sz k = (kr, 0, k.log c (.mach_vm_allocate t sz) kr)) ∨
    (∃ a, ch = some a ∧ (k.vm t).any (fun m => m.overlaps a sz) = false ∧
      mach_vm_allocate c ch t sz k = (KERN_SUCCESS, a,
        { k with
          vm := upd k.vm t (⟨a, sz, k.nextObj, 0⟩ :: k.vm t)
          mem := upd k.mem k.nextObj (fun _ => 0)
          nextObj := k.nextObj + 1
          trace := k.trace ++ [⟨c, .mach_vm_allocate t sz, KERN_SUCCESS⟩] })) := by
  cases ch with
  | none => exact Or.inl ⟨KERN_FAILURE, by decide, rfl⟩
  | some a =>
    by_cases hov : (k.vm t).any (fun m => m.overlaps a sz) = true
    · exact Or.inl ⟨KERN_NO_SPACE, by decide, by simp [mach_vm_allocate, hov]⟩
    · refine Or.inr ⟨a, rfl, by simpa using hov, ?_⟩
      simp [mach_vm_allocate, hov]

theorem mach_make_memory_entry_64_cases (c : Nat) (ok : Bool) (t : Nat)
    (sz : Nat) (a : Nat) (k : Kernel) :
    (∃ kr, kr ≠ KERN_SUCCESS ∧
      mach_make_memory_entry_64 c ok t sz a k
        = (kr, MACH_PORT_NULL, k.log c (.mach_make_memory_entry_64 t sz a) kr)) ∨
    (∃ m, ok = true ∧ k.lookup t a = some m ∧
      mach_make_memory_entry_64 c ok t sz a k = (KERN_SUCCESS, k.nextPort,
        { k with
          entry := upd k.entry k.nextPort (some ⟨m.obj, a - m.base + m.off, sz⟩)
          nextPort := k.nextPort + 1
          trace := k.trace ++ [⟨c, .mach_make_memory_entry_64 t sz a, KERN_SUCCESS⟩] })) := by
  cases ok with
  | false => exact Or.inl ⟨KERN_FAILURE, by decide, by simp [mach_make_memory_entry_64]⟩
  | true =>
    cases hl : k.lookup t a with
    | none =>
      exact Or.inl ⟨KERN_INVALID_ADDRESS, by decide, by simp [mach_make_memory_entry_64, hl]⟩
    | some m => exact Or.inr ⟨m, rfl, rfl, by simp [mach_make_memory_entry_64, hl]⟩

theorem mach_vm_map_cases (c : Nat) (ch : Option Nat) (t : Nat)
    (a0 : Nat) (sz : Nat) (port : Nat) (k : Kernel) :
    (∃ kr, kr ≠ KERN_SUCCESS ∧
      mach_vm_map c ch t a0 sz port k = (kr, a0, k.log c (.mach_vm_map t sz port) kr)) ∨
    (∃ a e, ch = some a ∧ k.entry port = some e ∧
      (k.vm t).any (fun m => m.overlaps a sz) = false ∧
      mach_vm_map c ch t a0 sz port k = (KERN_SUCCESS, a,
        { k with
          vm := upd k.vm t (⟨a, sz, e.obj, e.off⟩ :: k.vm t)
          trace := k.trace ++ [⟨c, .mach_vm_map t sz port, KERN_SUCCESS⟩] })) := by
  cases ch with
  | none => exact Or.inl ⟨KERN_FAILURE, by decide, rfl⟩
  | some a =>
    cases he : k.entry port with
    | none => exact Or.inl ⟨KERN_INVALID_ARGUMENT, by decide, by simp [mach_vm_map, he]⟩
    | some e =>
      by_cases hov : (k.vm t).any (fun m => m.overlaps a sz) = true
      · exact Or.inl ⟨KERN_NO_SPACE, by decide, by simp [mach_vm_map, he, hov]⟩
      · refine Or.inr ⟨a, e, rfl, rfl, by simpa using hov, ?_⟩
        simp [mach_vm_map, he, hov]

theorem mach_vm_allocate_inv {c : Nat} {ch : Option Nat}
    {t : Nat} {sz : Nat} {k k1 : Kernel} {a : Nat}
    (h : mach_vm_allocate c ch t sz k = (KERN_SUCCESS, a, k1)) :
    ch = some a ∧ (k.vm t).any (fun m => m.overlaps a sz) = false ∧
      k1 = { k with
        vm := upd k.vm t (⟨a, sz, k.nextObj, 0⟩ :: k.vm t)
        mem := upd k.mem k.nextObj (fun _ => 0)
        nextObj := k.nextObj + 1
        trace := k.trace ++ [⟨c, .mach_vm_allocate t sz, KERN_SUCCESS⟩] } := by
  rcases mach_vm_allocate_cases c ch t sz k with ⟨kr, hkr, h1⟩ | ⟨b, hb, hov, h1⟩
  · rw [h1] at h
    simp only [Prod.mk.injEq] at h
    exact absurd h.1 hkr
  · rw [h1] at h
    simp only [Prod.mk.injEq] at h
    obtain ⟨-, rfl, rfl⟩ := h
    exact ⟨hb, hov, rfl⟩

theorem mach_make_memory_entry_64_inv {c : Nat} {ok : Bool} {t : Nat}
    {sz : Nat} {a : Nat} {k k2 : Kernel} {port : Nat}
    (h : mach_make_memory_entry_64 c ok t sz a k = (KERN_SUCCESS, port, k2)) :
    ∃ m, ok = true ∧ k.lookup t a = some m ∧ port = k.nextPort ∧
      k2 = { k with
        entry := upd k.entry k.nextPort (some ⟨m.obj, a - m.base + m.off, sz⟩)
        nextPort := k.nextPort + 1
        trace := k.trace ++ [⟨c, .mach_make_memory_entry_64 t sz a, KERN_SUCCESS⟩] } := by
  rcases mach_make_memory_entry_64_cases c ok t sz a k with ⟨kr, hkr, h1⟩ | ⟨m, hok, hl, h1⟩
  · rw [h1] at h
    simp only [Prod.mk.injEq] at h
    exact absurd h.1 hkr
  · rw [h1] at h
    simp only [Prod.mk.injEq] at h
    obtain ⟨-, rfl, rfl⟩ := h
    exact ⟨m, hok, hl, rfl, rfl⟩

theorem mach_vm_map_inv {c : Nat} {ch : Option Nat} {t : Nat}
    {a0 a : Nat} {sz : Nat} {port : Nat} {k k3 : Kernel}
    (h : mach_vm_map c ch t a0 sz port k = (KERN_SUCCESS, a, k3)) :
    ∃ e, ch = some a ∧ k.entry port = some e ∧
      (k.vm t).any (fun m => m.overlaps a sz) = false ∧
      k3 = { k with
        vm := upd k.vm t (⟨a, sz, e.obj, e.off⟩ :: k.vm t)
        trace := k.trace ++ [⟨c, .mach_vm_map t sz port, KERN_SUCCESS⟩] } := by
  rcases mach_vm_map_cases c ch t a0 sz port k with ⟨kr, hkr, h1⟩ | ⟨b, e, hb, he, hov, h1⟩
  · rw [h1] at h
    simp only [Prod.mk.injEq] at h
    exact absurd h.1 hkr
  · rw [h1] at h
    simp only [Prod.mk.injEq] at h
    obtain ⟨-, rfl, rfl⟩ := h
    exact ⟨e, hb, he, hov, rfl⟩

theorem mach_vm_allocate_err {c : Nat} {ch : Option Nat}
    {t : Nat} {sz : Nat} {k k1 : Kernel} {a : Nat} {kr : Nat}
    (h : mach_vm_allocate c ch t sz k = (kr, a, k1)) (hkr : kr ≠ KERN_SUCCESS) :
    k1 = k.log c (.mach_vm_allocate t sz) kr := by
  rcases mach_vm_allocate_cases c ch t sz k with ⟨kr1, -, h1⟩ | ⟨b, -, -, h1⟩
  · rw [h1] at h
    simp only [Prod.mk.injEq] at h
    obtain ⟨rfl, -, rfl⟩ := h
    rfl
  · rw [h1] at h
    simp only [Prod.mk.injEq] at h
    exact absurd h.1.symm hkr

theorem mach_make_memory_entry_64_err {c : Nat} {ok : Bool} {t : Nat}
    {sz : Nat} {a : Nat} {k k2 : Kernel} {port : Nat}
    {kr : Nat}
    (h : mach_make_memory_entry_64 c ok t sz a k = (kr, port, k2)) (hkr : kr ≠ KERN_SUCCESS) :
    k2 = k.log c (.mach_make_memory_entry_64 t sz a) kr := by
  rcases mach_make_memory_entry_64_cases c ok t sz a k with ⟨kr1, -, h1⟩ | ⟨m, -, -, h1⟩
  · rw [h1] at h
    simp only [Prod.mk.injEq] at h
    obtain ⟨rfl, -, rfl⟩ := h
    rfl
  · rw [h1] at h
    simp only [Prod.mk.injEq] at h
    exact absurd h.1.symm hkr

theorem mach_vm_map_err {c : Nat} {ch : Option Nat} {t : Nat}
    {a0 a : Nat} {sz : Nat} {port : Nat} {k k3 : Kernel}
    {kr : Nat}
    (h : mach_vm_map c ch t a0 sz port k = (kr, a, k3)) (hkr : kr ≠ KERN_SUCCESS) :
    a = a0 ∧ k3 = k.log c (.mach_vm_map t sz port) kr := by
  rcases mach_vm_map_cases c ch t a0 sz port k with ⟨kr1, -, h1⟩ | ⟨b, e, -, -, -, h1⟩
  · rw [h1] at h
    simp only [Prod.mk.injEq] at h
    obtain ⟨rfl, rfl, rfl⟩ := h
    exact ⟨rfl, rfl⟩
  · rw [h1] at h
    simp only [Prod.mk.injEq] at h
    exact absurd h.1.symm hkr

/-- The five ways through `CreateThePort`: the three failure returns, a fault at
line 57, and the successful return. -/
theorem CreateThePortWithSize_cases (page_shift size : Nat) (self child_task : Nat)
    (o : VmChoices) (ca : Nat) (k : Kernel) :
    ∃ kr1 a k1,
      mach_vm_allocate self o.allocate self (round_page page_shift size) k = (kr1, a, k1) ∧
      ((kr1 ≠ KERN_SUCCESS ∧
        CreateThePortWithSize page_shift size self child_task o ca k
          = ⟨false, ca, a, MACH_PORT_NULL, [.failed_allocate size kr1], k1, false⟩) ∨
      (kr1 = KERN_SUCCESS ∧ ∃ kr2 port k2,
        mach_make_memory_entry_64 self o.make_entry self (round_page page_shift size) a k1
          = (kr2, port, k2) ∧
        ((kr2 ≠ KERN_SUCCESS ∧
          CreateThePortWithSize page_shift size self child_task o ca k
            = ⟨false, ca, a, port, [.failed_memory_entry size kr2], k2, false⟩) ∨
        (kr2 = KERN_SUCCESS ∧ ∃ kr3 a' k3,
          mach_vm_map self o.map child_task ca (round_page page_shift size) port k2
            = (kr3, a', k3) ∧
          ((kr3 ≠ KERN_SUCCESS ∧
            CreateThePortWithSize page_shift size self child_task o ca k
              = ⟨false, a', a, port, [.failed_map size kr3], k3, false⟩) ∨
          (kr3 = KERN_SUCCESS ∧
            ((k3.writeInt self a 42 = none ∧
              CreateThePortWithSize page_shift size self child_task o ca k
                = ⟨false, a', a, port, [], k3, true⟩) ∨
            (∃ k4, k3.writeInt self a 42 = some k4 ∧
              CreateThePortWithSize page_shift size self child_task o ca k
                = ⟨true, a', a, port,
                    [.address a, .child_address a', .create_port port], k4, false⟩)))))))) := by
  unfold CreateThePortWithSize
  rcases h1 : mach_vm_allocate self o.allocate self (round_page page_shift size) k with
    ⟨kr1, a, k1⟩
  refine ⟨kr1, a, k1, rfl, ?_⟩
  by_cases hk1 : kr1 = KERN_SUCCESS
  swap
  · exact Or.inl ⟨hk1, by simp [hk1]⟩
  refine Or.inr ⟨hk1, ?_⟩
  rcases h2 : mach_make_memory_entry_64 self o.make_entry self (round_page page_shift size)
    a k1 with ⟨kr2, port, k2⟩
  refine ⟨kr2, port, k2, rfl, ?_⟩
  by_cases hk2 : kr2 = KERN_SUCCESS
  swap
  · exact Or.inl ⟨hk2, by simp [hk1, h2, hk2]⟩
  refine Or.inr ⟨hk2, ?_⟩
  rcases h3 : mach_vm_map self o.map child_task ca (round_page page_shift size) port k2 with
    ⟨kr3, a', k3⟩
  refine ⟨kr3, a', k3, rfl, ?_⟩
  by_cases hk3 : kr3 = KERN_SUCCESS
  swap
  · exact Or.inl ⟨hk3, by simp [hk1, h2, hk2, h3, hk3]⟩
  refine Or.inr ⟨hk3, ?_⟩
  cases h4 : k3.writeInt self a 42 with
  | none => exact Or.inl ⟨rfl, by simp [hk1, h2, hk2, h3, hk3, h4]⟩
  | some k4 => exact Or.inr ⟨k4, rfl, by simp [hk1, h2, hk2, h3, hk3, h4]⟩

theorem round_page_8000_pos (page_shift : Nat) (hps : page_shift < 64) :
    0 < round_page page_shift 8000 := by
  have h1 : 2 ^ page_shift ≤ 2 ^ 63 := Nat.pow_le_pow_right (by norm_num) (by omega)
  have h2 : 8000 + PAGE_MASK page_shift < 2 ^ 64 := by
    unfold PAGE_MASK PAGE_SIZE
    omega
  have := (round_page_spec page_shift 8000 h2).2.1
  omega

/-! ## `CreateThePort`: trace of kernel calls -/

theorem mach_vm_allocate_trace {c : Nat} {ch : Option Nat} {t sz : Nat} {k k1 : Kernel}
    {a kr : Nat} (h : mach_vm_allocate c ch t sz k = (kr, a, k1)) :
    k1.trace = k.trace ++ [⟨c, .mach_vm_allocate t sz, kr⟩] := by
  rcases mach_vm_allocate_cases c ch t sz k with ⟨kr1, -, h1⟩ | ⟨b, -, -, h1⟩ <;>
  · rw [h1] at h
    simp only [Prod.mk.injEq] at h
    obtain ⟨rfl, -, rfl⟩ := h
    rfl

theorem mach_make_memory_entry_64_trace {c : Nat} {ok : Bool} {t sz a : Nat} {k k2 : Kernel}
    {port kr : Nat} (h : mach_make_memory_entry_64 c ok t sz a k = (kr, port, k2)) :
    k2.trace = k.trace ++ [⟨c, .mach_make_memory_entry_64 t sz a, kr⟩] := by
  rcases mach_make_memory_entry_64_cases c ok t sz a k with ⟨kr1, -, h1⟩ | ⟨m, -, -, h1⟩ <;>
  · rw [h1] at h
    simp only [Prod.mk.injEq] at h
    obtain ⟨rfl, -, rfl⟩ := h
    rfl

theorem mach_vm_map_trace {c : Nat} {ch : Option Nat} {t a0 a sz port : Nat} {k k3 : Kernel}
    {kr : Nat} (h : mach_vm_map c ch t a0 sz port k = (kr, a, k3)) :
    k3.trace = k.trace ++ [⟨c, .mach_vm_map t sz port, kr⟩] := by
  rcases mach_vm_map_cases c ch t a0 sz port k with ⟨kr1, -, h1⟩ | ⟨b, e, -, -, -, h1⟩ <;>
  · rw [h1] at h
    simp only [Prod.mk.injEq] at h
    obtain ⟨rfl, -, rfl⟩ := h
    rfl

theorem writeInt_trace {k k4 : Kernel} {t a : Nat} {v : Int}
    (h : k.writeInt t a v = some k4) : k4.trace = k.trace := by
  unfold Kernel.writeInt at h
  cases hl : k.lookup t a with
  | none => simp [hl] at h
  | some m =>
    simp only [hl, Option.some.injEq] at h
    subst h
    rfl

/-- What `CreateThePort` does, by the outcome of its three kernel calls. -/
theorem CreateThePortWithSize_outcomes (page_shift size self child_task : Nat)
    (o : VmChoices) (ca : Nat) (k : Kernel) (r : CreateThePortResult)
    (hr : CreateThePortWithSize page_shift size self child_task o ca k = r) :
    ((line30 page_shift size self o k).1 ≠ KERN_SUCCESS →
      r.ret = false ∧ r.crashed = false ∧
      r.out = [.failed_allocate size (line30 page_shift size self o k).1] ∧
      r.k = k.log self (.mach_vm_allocate self (round_page page_shift size))
        (line30 page_shift size self o k).1 ∧
      k.since r.k = [⟨self, .mach_vm_allocate self (round_page page_shift size),
        (line30 page_shift size self o k).1⟩]) ∧
    ((line30 page_shift size self o k).1 = KERN_SUCCESS →
      (line40 page_shift size self o k).1 ≠ KERN_SUCCESS →
      r.ret = false ∧ r.crashed = false ∧
      r.out = [.failed_memory_entry size (line40 page_shift size self o k).1] ∧
      r.k = (line30 page_shift size self o k).2.2.log self
        (.mach_make_memory_entry_64 self (round_page page_shift size)
          (line30 page_shift size self o k).2.1) (line40 page_shift size self o k).1 ∧
      k.since r.k =
        [⟨self, .mach_vm_allocate self (round_page page_shift size), KERN_SUCCESS⟩,
         ⟨self, .mach_make_memory_entry_64 self (round_page page_shift size)
            (line30 page_shift size self o k).2.1, (line40 page_shift size self o k).1⟩]) ∧
    ((line30 page_shift size self o k).1 = KERN_SUCCESS →
      (line40 page_shift size self o k).1 = KERN_SUCCESS →
      (line48 page_shift size self child_task o ca k).1 ≠ KERN_SUCCESS →
      r.ret = false ∧ r.crashed = false ∧
      r.out = [.failed_map size (line48 page_shift size self child_task o ca k).1] ∧
      r.child_address = ca ∧ r.address = (line30 page_shift size self o k).2.1 ∧
      r.k = (line40 page_shift size self o k).2.2.log self
        (.mach_vm_map child_task (round_page page_shift size)
          (line40 page_shift size self o k).2.1)
        (line48 page_shift size self child_task o ca k).1 ∧
      k.since r.k =
        [⟨self, .mach_vm_allocate self (round_page page_shift size), KERN_SUCCESS⟩,
         ⟨self, .mach_make_memory_entry_64 self (round_page page_shift size)
            (line30 page_shift size self o k).2.1, KERN_SUCCESS⟩,
         ⟨self, .mach_vm_map child_task (round_page page_shift size)
            (line40 page_shift size self o k).2.1,
            (line48 page_shift size self child_task o ca k).1⟩]) ∧
    ((line30 page_shift size self o k).1 = KERN_SUCCESS →
      (line40 page_shift size self o k).1 = KERN_SUCCESS →
      (line48 page_shift size self child_task o ca k).1 = KERN_SUCCESS →
      (r.ret = true ∨ r.crashed = true) ∧
      r.address = (line30 page_shift size self o k).2.1 ∧
      r.port = (line40 page_shift size self o k).2.1 ∧
      r.child_address = (line48 page_shift size self child_task o ca k).2.1 ∧
      k.since r.k =
        [⟨self, .mach_vm_allocate self (round_page page_shift size), KERN_SUCCESS⟩,
         ⟨self, .mach_make_memory_entry_64 self (round_page page_shift size)
            r.address, KERN_SUCCESS⟩,
         ⟨self, .mach_vm_map child_task (round_page page_shift size) r.port,
            KERN_SUCCESS⟩]) := by
  obtain ⟨kr1, a, k1, h1, hc⟩ :=
    CreateThePortWithSize_cases page_shift size self child_task o ca k
  rw [hr] at hc
  have hl30 : line30 page_shift size self o k = (kr1, a, k1) := h1
  have ht1 := mach_vm_allocate_trace h1
  rcases hc with ⟨hk1, rfl⟩ | ⟨rfl, kr2, port, k2, h2, hc⟩
  · have hk := mach_vm_allocate_err h1 hk1
    subst hk
    simp only [hl30]
    refine ⟨fun _ => ⟨?_, ?_, ?_, ?_, ?_⟩, fun h => absurd h hk1, fun h => absurd h hk1,
      fun h => absurd h hk1⟩ <;> first | rfl | trivial | exact since_append _ _ _ rfl
  have hl40 : line40 page_shift size self o k = (kr2, port, k2) := by
    simp only [line40, hl30]
    exact h2
  have ht2 := mach_make_memory_entry_64_trace h2
  rcases hc with ⟨hk2, rfl⟩ | ⟨rfl, kr3, a', k3, h3, hc⟩
  · have hk := mach_make_memory_entry_64_err h2 hk2
    subst hk
    simp only [hl30, hl40]
    refine ⟨fun h => absurd rfl h, fun _ _ => ⟨?_, ?_, ?_, ?_, ?_⟩,
      fun _ h => absurd h hk2, fun _ h => absurd h hk2⟩ <;>
      first | rfl | trivial | (apply since_append; simp [Kernel.log, ht1])
  have hl48 : line48 page_shift size self child_task o ca k = (kr3, a', k3) := by
    simp only [line48, hl40]
    exact h3
  have ht3 := mach_vm_map_trace h3
  rcases hc with ⟨hk3, rfl⟩ | ⟨rfl, hc⟩
  · obtain ⟨rfl, hk⟩ := mach_vm_map_err h3 hk3
    subst hk
    simp only [hl30, hl40, hl48]
    refine ⟨fun h => absurd rfl h, fun _ h => absurd rfl h,
      fun _ _ _ => ⟨?_, ?_, ?_, ?_, ?_, ?_, ?_⟩, fun _ _ h => absurd h hk3⟩ <;>
      first | rfl | trivial | (apply since_append; simp [Kernel.log, ht1, ht2])
  simp only [hl30, hl40, hl48]
  refine ⟨fun h => absurd rfl h, fun _ h => absurd rfl h, fun _ _ h => absurd rfl h, ?_⟩
  rcases hc with ⟨-, rfl⟩ | ⟨k4, h4, rfl⟩
  · refine fun _ _ _ => ⟨Or.inr rfl, ?_, ?_, ?_, ?_⟩ <;>
      first | rfl | trivial | (apply since_append; simp [ht1, ht2, ht3])
  · refine fun _ _ _ => ⟨Or.inl rfl, ?_, ?_, ?_, ?_⟩ <;>
      first | rfl | trivial | (apply since_append; simp [ht1, ht2, ht3, writeInt_trace h4])

/-- After lines 30, 40 and 48 succeeded: the same new memory object, still
zero-filled, is mapped at `a` in the caller and at `a'` in `child_task`. -/
theorem after_line48 {self child_task ca rp a port a' : Nat} {o : VmChoices}
    {k k1 k2 k3 : Kernel} (hrp : 0 < rp)
    (h1 : mach_vm_allocate self o.allocate self rp k = (KERN_SUCCESS, a, k1))
    (h2 : mach_make_memory_entry_64 self o.make_entry self rp a k1 = (KERN_SUCCESS, port, k2))
    (h3 : mach_vm_map self o.map child_task ca rp port k2 = (KERN_SUCCESS, a', k3)) :
    o.allocate = some a ∧ o.map = some a' ∧ port = k.nextPort ∧
      k3.lookup self a = some ⟨a, rp, k.nextObj, 0⟩ ∧
      k3.lookup child_task a' = some ⟨a', rp, k.nextObj, 0⟩ ∧
      k3.mem = upd k.mem k.nextObj (fun _ => 0) := by
  obtain ⟨ha, hov1, rfl⟩ := mach_vm_allocate_inv h1
  have hl1 : Kernel.lookup
      { k with
        vm := upd k.vm self (⟨a, rp, k.nextObj, 0⟩ :: k.vm self)
        mem := upd k.mem k.nextObj (fun _ => 0)
        nextObj := k.nextObj + 1
        trace := k.trace ++ [⟨self, .mach_vm_allocate self rp, KERN_SUCCESS⟩] }
      self a = some ⟨a, rp, k.nextObj, 0⟩ := by
    simp [Kernel.lookup, upd, Mapping.contains, hrp]
  obtain ⟨m, -, hm, rfl, rfl⟩ := mach_make_memory_entry_64_inv h2
  rw [hl1] at hm
  obtain rfl := (Option.some.inj hm).symm
  obtain ⟨e, hmap, he, hov2, rfl⟩ := mach_vm_map_inv h3
  simp only [upd, if_true, Option.some.injEq] at he
  subst he
  simp only [Nat.sub_self, Nat.zero_add]
  refine ⟨ha, hmap, by first | rfl | trivial, ?_, ?_, by first | rfl | trivial⟩
  · by_cases hst : self = child_task
    · subst hst
      simp only [upd, if_true, List.any_cons, Mapping.overlaps, Bool.or_eq_false_iff,
        Bool.and_eq_false_iff, decide_eq_false_iff_not] at hov2
      have hnc : ¬ (a' ≤ a ∧ a < a' + rp) := by
        rcases hov2.1 with h | h <;> omega
      simp [Kernel.lookup, upd, Mapping.contains, hrp, List.find?_cons, hnc]
    · simp [Kernel.lookup, upd, Mapping.contains, hrp, hst]
  · simp [Kernel.lookup, upd, Mapping.contains, hrp]

/-- With a non-empty region, the store of line 57 cannot fault. -/
theorem CreateThePortWithSize_no_crash (page_shift size self child_task : Nat)
    (o : VmChoices) (ca : Nat) (k : Kernel) (hrp : 0 < round_page page_shift size) :
    (CreateThePortWithSize page_shift size self child_task o ca k).crashed = false := by
  obtain ⟨kr1, a, k1, h1, hc⟩ :=
    CreateThePortWithSize_cases page_shift size self child_task o ca k
  rcases hc with ⟨-, h⟩ | ⟨rfl, kr2, port, k2, h2, hc⟩
  · rw [h]
  rcases hc with ⟨-, h⟩ | ⟨rfl, kr3, a', k3, h3, hc⟩
  · rw [h]
  rcases hc with ⟨-, h⟩ | ⟨rfl, hc⟩
  · rw [h]
  rcases hc with ⟨h4, -⟩ | ⟨k4, -, h⟩
  · obtain ⟨-, -, -, hl, -, -⟩ := after_line48 hrp h1 h2 h3
    simp [Kernel.writeInt, hl] at h4
  · rw [h]

/-- The state a successful `CreateThePort` leaves: one new memory object, mapped at
`a` in the caller and at `a'` in `child_task`, holding 42 at offset 0. -/
theorem CreateThePortWithSize_success (page_shift size self child_task : Nat)
    (o : VmChoices) (ca : Nat) (k : Kernel) (r : CreateThePortResult)
    (hr : CreateThePortWithSize page_shift size self child_task o ca k = r)
    (hrp : 0 < round_page page_shift size) (hret : r.ret = true) :
    ∃ a a', o.allocate = some a ∧ o.map = some a' ∧ r.address = a ∧ r.child_address = a' ∧
      r.port = k.nextPort ∧
      r.out = [.address a, .child_address a', .create_port k.nextPort] ∧
      r.k.lookup self a = some ⟨a, round_page page_shift size, k.nextObj, 0⟩ ∧
      r.k.lookup child_task a' = some ⟨a', round_page page_shift size, k.nextObj, 0⟩ ∧
      r.k.mem k.nextObj 0 = 42 := by
  obtain ⟨kr1, a, k1, h1, hc⟩ :=
    CreateThePortWithSize_cases page_shift size self child_task o ca k
  rw [hr] at hc
  rcases hc with ⟨-, rfl⟩ | ⟨rfl, kr2, port, k2, h2, hc⟩
  · simp at hret
  rcases hc with ⟨-, rfl⟩ | ⟨rfl, kr3, a', k3, h3, hc⟩
  · simp at hret
  rcases hc with ⟨-, rfl⟩ | ⟨rfl, hc⟩
  · simp at hret
  rcases hc with ⟨-, rfl⟩ | ⟨k4, h4, rfl⟩
  · simp at hret
  obtain ⟨ha, hmap, rfl, hl, hl', hmem⟩ := after_line48 hrp h1 h2 h3
  unfold Kernel.writeInt at h4
  rw [hl] at h4
  simp only [Option.some.injEq] at h4
  subst h4
  refine ⟨a, a', ha, hmap, rfl, rfl, rfl, rfl, hl, hl', ?_⟩
  simp [upd]

/-- After lines 30 and 40 succeeded, whatever is logged next, the first `int` of
the caller's new region still holds the 0 it was allocated with. -/
theorem after_line40_read {self rp a port : Nat} {o : VmChoices} {k k1 k2 : Kernel}
    (hrp : 0 < rp)
    (h1 : mach_vm_allocate self o.allocate self rp k = (KERN_SUCCESS, a, k1))
    (h2 : mach_make_memory_entry_64 self o.make_entry self rp a k1 = (KERN_SUCCESS, port, k2))
    (c : Nat) (call : Call) (kr : Nat) :
    (k2.log c call kr).readInt self a = some 0 := by
  obtain ⟨-, -, rfl⟩ := mach_vm_allocate_inv h1
  obtain ⟨m, -, -, -, rfl⟩ := mach_make_memory_entry_64_inv h2
  simp [Kernel.readInt, Kernel.lookup, Kernel.log, upd, Mapping.contains, hrp]

/-! ## Remote shared-memory setup: properties C3, C4, C5, C9 and C10 -/

/-- C3. Whenever `CreateThePort` returns true: the address handed back through
`child_address` is the one the remote mapping call chose in the address space of
`child_task`, where a mapping now starts at it, while `address` is the one the
local allocation chose; both mappings are backed by the same memory object at the
same offset; the `int` at offset 0 of the caller's local mapping is 42; the `int` at
the returned address in the address space of `child_task` is 42; and the three
kernel calls of the setup were all made by the caller, the one mapping call among
them being the remote one. -/
theorem CreateThePort_sentinel_in_both_address_spaces (page_shift self child_task : Nat)
    (o : VmChoices) (ca : Nat) (k : Kernel) (r : CreateThePortResult)
    (hps : page_shift < 64)
    (hr : CreateThePort page_shift self child_task o ca k = r) (hret : r.ret = true) :
    o.map = some r.child_address ∧ o.allocate = some r.address ∧
    (∃ m m', r.k.lookup self r.address = some m ∧
      r.k.lookup child_task r.child_address = some m' ∧
      m.base = r.address ∧ m'.base = r.child_address ∧ m.obj = m'.obj ∧ m.off = m'.off) ∧
    r.k.readInt self r.address = some 42 ∧
    r.k.readInt child_task r.child_address = some 42 ∧
    (∀ e ∈ k.since r.k, e.caller = self) ∧
    (k.since r.k).map (fun e => e.call) =
      [.mach_vm_allocate self (round_page page_shift 8000),
       .mach_make_memory_entry_64 self (round_page page_shift 8000) r.address,
       .mach_vm_map child_task (round_page page_shift 8000) r.port] := by
  have hrp := round_page_8000_pos page_shift hps
  obtain ⟨a, a', ha, hmap, hra, hrc, -, -, hl, hl', hmem⟩ :=
    CreateThePortWithSize_success page_shift 8000 self child_task o ca k r hr hrp hret
  have hout := (CreateThePortWithSize_outcomes page_shift 8000 self child_task o ca k r hr)
  have h30 : (line30 page_shift 8000 self o k).1 = KERN_SUCCESS := by
    by_contra h
    have := (hout.1 h).1
    simp [hret] at this
  have h40 : (line40 page_shift 8000 self o k).1 = KERN_SUCCESS := by
    by_contra h
    have := (hout.2.1 h30 h).1
    simp [hret] at this
  have h48 : (line48 page_shift 8000 self child_task o ca k).1 = KERN_SUCCESS := by
    by_contra h
    have := (hout.2.2.1 h30 h40 h).1
    simp [hret] at this
  have hs := (hout.2.2.2 h30 h40 h48).2.2.2.2
  subst hra hrc
  refine ⟨hmap, ha, ⟨_, _, hl, hl', rfl, rfl, rfl, rfl⟩, ?_, ?_, ?_, ?_⟩
  · simp [Kernel.readInt, hl, hmem]
  · simp [Kernel.readInt, hl', hmem]
  · intro e he
    rw [hs] at he
    simp only [List.mem_cons, List.mem_singleton, List.not_mem_nil, or_false] at he
    rcases he with rfl | rfl | rfl <;> rfl
  · rw [hs]
    rfl

/-- Witness for C3: page size 4096, caller task 1, `child_task` 2, the local region
placed at 4096 and the remote one at 12288. -/
theorem CreateThePort_sentinel_in_both_address_spaces_witness :
    (12 < 64 ∧
      (CreateThePort 12 1 2 ⟨some 4096, true, some 12288⟩ 0 Kernel.empty).ret = true) ∧
    (CreateThePort 12 1 2 ⟨some 4096, true, some 12288⟩ 0 Kernel.empty).k.readInt 2
      (CreateThePort 12 1 2 ⟨some 4096, true, some 12288⟩ 0 Kernel.empty).child_address
        = some 42 :=
  ⟨⟨by decide, by decide⟩,
    (CreateThePort_sentinel_in_both_address_spaces 12 1 2 ⟨some 4096, true, some 12288⟩ 0
      Kernel.empty _ (by decide) rfl (by decide)).2.2.2.2.1⟩

/-- The macro wraps above `2^64` minus the page size: `round_page(2^64 - 1)` is 0
with 4096-byte pages.  `CreateThePort` never gets there, its size being 8000. -/
theorem round_page_wraps : round_page 12 (2 ^ 64 - 1) = 0 := by
  decide

/-- The sizes of the calls of `CreateThePortWithSize`, and what `round_page` gives,
for a size that `round_page` does not wrap. -/
theorem CreateThePortWithSize_sizes (page_shift size self child_task : Nat)
    (o : VmChoices) (ca : Nat) (k : Kernel)
    (hsz : size + PAGE_MASK page_shift < 2 ^ 64) :
    (∀ e ∈ k.since (CreateThePortWithSize page_shift size self child_task o ca k).k,
      e.call.size? = some (round_page page_shift size)) ∧
    (∃ kr, (k.since (CreateThePortWithSize page_shift size self child_task o ca k).k).head?
      = some ⟨self, .mach_vm_allocate self (round_page page_shift size), kr⟩) ∧
    ((CreateThePortWithSize page_shift size self child_task o ca k).ret = true →
      (k.since (CreateThePortWithSize page_shift size self child_task o ca k).k).map
          (fun e => e.call) =
        [.mach_vm_allocate self (round_page page_shift size),
         .mach_make_memory_entry_64 self (round_page page_shift size)
           (CreateThePortWithSize page_shift size self child_task o ca k).address,
         .mach_vm_map child_task (round_page page_shift size)
           (CreateThePortWithSize page_shift size self child_task o ca k).port]) ∧
    PAGE_SIZE page_shift ∣ round_page page_shift size ∧
    size ≤ round_page page_shift size ∧
    round_page page_shift size < size + PAGE_SIZE page_shift ∧
    (∀ m, PAGE_SIZE page_shift ∣ m → size ≤ m → round_page page_shift size ≤ m) := by
  obtain ⟨hdvd, hle, hlt⟩ := round_page_spec page_shift size hsz
  have hout := CreateThePortWithSize_outcomes page_shift size self child_task o ca k _ rfl
  refine ⟨?_, ?_, ?_, hdvd, hle, hlt, ?_⟩
  · intro e he
    by_cases h30 : (line30 page_shift size self o k).1 = KERN_SUCCESS
    · by_cases h40 : (line40 page_shift size self o k).1 = KERN_SUCCESS
      · by_cases h48 : (line48 page_shift size self child_task o ca k).1 = KERN_SUCCESS
        · rw [(hout.2.2.2 h30 h40 h48).2.2.2.2] at he
          simp only [List.mem_cons, List.mem_singleton, List.not_mem_nil, or_false] at he
          rcases he with rfl | rfl | rfl <;> rfl
        · rw [(hout.2.2.1 h30 h40 h48).2.2.2.2.2.2] at he
          simp only [List.mem_cons, List.mem_singleton, List.not_mem_nil, or_false] at he
          rcases he with rfl | rfl | rfl <;> rfl
      · rw [(hout.2.1 h30 h40).2.2.2.2] at he
        simp only [List.mem_cons, List.mem_singleton, List.not_mem_nil, or_false] at he
        rcases he with rfl | rfl <;> rfl
    · rw [(hout.1 h30).2.2.2.2] at he
      simp only [List.mem_cons, List.mem_singleton, List.not_mem_nil, or_false] at he
      rcases he with rfl
      rfl
  · by_cases h30 : (line30 page_shift size self o k).1 = KERN_SUCCESS
    · by_cases h40 : (line40 page_shift size self o k).1 = KERN_SUCCESS
      · by_cases h48 : (line48 page_shift size self child_task o ca k).1 = KERN_SUCCESS
        · rw [(hout.2.2.2 h30 h40 h48).2.2.2.2]
          exact ⟨_, rfl⟩
        · rw [(hout.2.2.1 h30 h40 h48).2.2.2.2.2.2]
          exact ⟨_, rfl⟩
      · rw [(hout.2.1 h30 h40).2.2.2.2]
        exact ⟨_, rfl⟩
    · rw [(hout.1 h30).2.2.2.2]
      exact ⟨_, rfl⟩
  · intro hret
    have h30 : (line30 page_shift size self o k).1 = KERN_SUCCESS := by
      by_contra h
      have := (hout.1 h).1
      simp [hret] at this
    have h40 : (line40 page_shift size self o k).1 = KERN_SUCCESS := by
      by_contra h
      have := (hout.2.1 h30 h).1
      simp [hret] at this
    have h48 : (line48 page_shift size self child_task o ca k).1 = KERN_SUCCESS := by
      by_contra h
      have := (hout.2.2.1 h30 h40 h).1
      simp [hret] at this
    rw [(hout.2.2.2 h30 h40 h48).2.2.2.2]
    rfl
  · intro m hm hsm
    by_contra hc
    have hpos : 0 < round_page page_shift size - m := by omega
    have hd : PAGE_SIZE page_shift ∣ round_page page_shift size - m := Nat.dvd_sub' hdvd hm
    have := Nat.le_of_dvd hpos hd
    omega

/-- C4. For every page size `2^page_shift` with `page_shift < 64` and the size
`CreateThePort` requests, 8000 (line 28): every virtual-memory call it makes is
passed `round_page(8000)`, the first of them being the local allocation; when it
returns true the calls are the local allocation, the memory-object creation and
the remote mapping, all three with that one size; `round_page(8000)` is a
multiple of the page size, at least 8000, below 8000 plus one page, and the least
such multiple.  The same bounds hold for the sizes 1, 4096 and 4097. -/
theorem CreateThePort_sizes_are_round_page (page_shift self child_task : Nat)
    (o : VmChoices) (ca : Nat) (k : Kernel) (hps : page_shift < 64) :
    (∀ e ∈ k.since (CreateThePort page_shift self child_task o ca k).k,
      e.call.size? = some (round_page page_shift 8000)) ∧
    (∃ kr, (k.since (CreateThePort page_shift self child_task o ca k).k).head?
      = some ⟨self, .mach_vm_allocate self (round_page page_shift 8000), kr⟩) ∧
    ((CreateThePort page_shift self child_task o ca k).ret = true →
      (k.since (CreateThePort page_shift self child_task o ca k).k).map (fun e => e.call) =
        [.mach_vm_allocate self (round_page page_shift 8000),
         .mach_make_memory_entry_64 self (round_page page_shift 8000)
           (CreateThePort page_shift self child_task o ca k).address,
         .mach_vm_map child_task (round_page page_shift 8000)
           (CreateThePort page_shift self child_task o ca k).port]) ∧
    (∀ size ∈ [8000, 1, 4096, 4097],
      PAGE_SIZE page_shift ∣ round_page page_shift size ∧
      size ≤ round_page page_shift size ∧
      round_page page_shift size < size + PAGE_SIZE page_shift ∧
      (∀ m, PAGE_SIZE page_shift ∣ m → size ≤ m → round_page page_shift size ≤ m)) := by
  have h1 : 2 ^ page_shift ≤ 2 ^ 63 := Nat.pow_le_pow_right (by norm_num) (by omega)
  have hsz : ∀ size, size ≤ 8000 → size + PAGE_MASK page_shift < 2 ^ 64 := by
    intro size hs
    unfold PAGE_MASK PAGE_SIZE
    omega
  have h := CreateThePortWithSize_sizes page_shift 8000 self child_task o ca k
    (hsz 8000 (le_refl _))
  refine ⟨h.1, h.2.1, h.2.2.1, ?_⟩
  intro size hmem
  have hle : size ≤ 8000 := by
    simp only [List.mem_cons, List.mem_singleton, List.not_mem_nil, or_false] at hmem
    omega
  have h2 := CreateThePortWithSize_sizes page_shift size self child_task o ca k (hsz size hle)
  exact h2.2.2.2

/-- Witness for C4: 16384-byte pages, caller task 1, `child_task` 2; the three
calls get 16384. -/
theorem CreateThePort_sizes_are_round_page_witness :
    14 < 64 ∧
    (∀ e ∈ Kernel.empty.since
        (CreateThePort 14 1 2 ⟨some 16384, true, some 32768⟩ 0 Kernel.empty).k,
      e.call.size? = some (round_page 14 8000)) ∧
    round_page 14 8000 = 16384 :=
  ⟨by decide,
    (CreateThePort_sizes_are_round_page 14 1 2 ⟨some 16384, true, some 32768⟩ 0
      Kernel.empty (by decide)).1,
    by decide⟩

/-- C5, as stated, fails: an allocation failure, a memory-object-creation failure
and a remote-mapping failure all make `CreateThePort` return the same value,
`false`; only the line printed differs. -/
theorem CreateThePort_failures_return_same_value :
    (line30 12 8000 1 ⟨none, true, some 12288⟩ Kernel.empty).1 ≠ KERN_SUCCESS ∧
    ((line30 12 8000 1 ⟨some 4096, false, some 12288⟩ Kernel.empty).1 = KERN_SUCCESS ∧
      (line40 12 8000 1 ⟨some 4096, false, some 12288⟩ Kernel.empty).1 ≠ KERN_SUCCESS) ∧
    ((line30 12 8000 1 ⟨some 4096, true, none⟩ Kernel.empty).1 = KERN_SUCCESS ∧
      (line40 12 8000 1 ⟨some 4096, true, none⟩ Kernel.empty).1 = KERN_SUCCESS ∧
      (line48 12 8000 1 2 ⟨some 4096, true, none⟩ 0 Kernel.empty).1 ≠ KERN_SUCCESS) ∧
    (CreateThePort 12 1 2 ⟨none, true, some 12288⟩ 0 Kernel.empty).ret
      = (CreateThePort 12 1 2 ⟨some 4096, false, some 12288⟩ 0 Kernel.empty).ret ∧
    (CreateThePort 12 1 2 ⟨some 4096, false, some 12288⟩ 0 Kernel.empty).ret
      = (CreateThePort 12 1 2 ⟨some 4096, true, none⟩ 0 Kernel.empty).ret := by
  decide

/-- C5 (amended). `CreateThePort` aborts at the first failing step and returns
`false` for each of the three failure kinds, the value `true` being returned only
when all three calls succeed; the kinds differ in the line printed.  When the
local allocation fails that call is the only one made and no memory entry is
created; when memory-object creation fails no mapping call is made; when the
remote mapping fails `child_address` is left alone and the first `int` of the
local region still holds 0. -/
theorem CreateThePort_aborts_at_first_failure (page_shift self child_task : Nat)
    (o : VmChoices) (ca : Nat) (k : Kernel) (r : CreateThePortResult)
    (hps : page_shift < 64)
    (hr : CreateThePort page_shift self child_task o ca k = r) :
    ((line30 page_shift 8000 self o k).1 ≠ KERN_SUCCESS →
      r.ret = false ∧
      r.out = [.failed_allocate 8000 (line30 page_shift 8000 self o k).1] ∧
      k.since r.k = [⟨self, .mach_vm_allocate self (round_page page_shift 8000),
        (line30 page_shift 8000 self o k).1⟩] ∧
      r.k.entry = k.entry ∧ r.k.nextObj = k.nextObj ∧ r.k.vm = k.vm) ∧
    ((line30 page_shift 8000 self o k).1 = KERN_SUCCESS →
      (line40 page_shift 8000 self o k).1 ≠ KERN_SUCCESS →
      r.ret = false ∧
      r.out = [.failed_memory_entry 8000 (line40 page_shift 8000 self o k).1] ∧
      k.since r.k =
        [⟨self, .mach_vm_allocate self (round_page page_shift 8000), KERN_SUCCESS⟩,
         ⟨self, .mach_make_memory_entry_64 self (round_page page_shift 8000)
            (line30 page_shift 8000 self o k).2.1, (line40 page_shift 8000 self o k).1⟩]) ∧
    ((line30 page_shift 8000 self o k).1 = KERN_SUCCESS →
      (line40 page_shift 8000 self o k).1 = KERN_SUCCESS →
      (line48 page_shift 8000 self child_task o ca k).1 ≠ KERN_SUCCESS →
      r.ret = false ∧
      r.out = [.failed_map 8000 (line48 page_shift 8000 self child_task o ca k).1] ∧
      r.child_address = ca ∧
      r.k.readInt self r.address = some 0) ∧
    ((line30 page_shift 8000 self o k).1 = KERN_SUCCESS →
      (line40 page_shift 8000 self o k).1 = KERN_SUCCESS →
      (line48 page_shift 8000 self child_task o ca k).1 = KERN_SUCCESS →
      r.ret = true) ∧
    (r.ret = true →
      (line30 page_shift 8000 self o k).1 = KERN_SUCCESS ∧
      (line40 page_shift 8000 self o k).1 = KERN_SUCCESS ∧
      (line48 page_shift 8000 self child_task o ca k).1 = KERN_SUCCESS) := by
  have hrp := round_page_8000_pos page_shift hps
  have hout := CreateThePortWithSize_outcomes page_shift 8000 self child_task o ca k r hr
  have hnc := CreateThePortWithSize_no_crash page_shift 8000 self child_task o ca k hrp
  rw [show CreateThePortWithSize page_shift 8000 self child_task o ca k = r from hr] at hnc
  refine ⟨?_, ?_, ?_, ?_, ?_⟩
  · intro h30
    obtain ⟨h1, -, h2, h3, h4⟩ := hout.1 h30
    refine ⟨h1, h2, h4, ?_, ?_, ?_⟩ <;> rw [h3] <;> rfl
  · intro h30 h40
    obtain ⟨h1, -, h2, -, h4⟩ := hout.2.1 h30 h40
    exact ⟨h1, h2, h4⟩
  · intro h30 h40 h48
    obtain ⟨h1, -, h2, h3, h5, h6, -⟩ := hout.2.2.1 h30 h40 h48
    refine ⟨h1, h2, h3, ?_⟩
    rw [h5, h6]
    rcases e1 : line30 page_shift 8000 self o k with ⟨kr1, a, k1⟩
    rcases e2 : line40 page_shift 8000 self o k with ⟨kr2, port, k2⟩
    rw [e1] at h30
    rw [e2] at h40
    simp only at h30 h40
    subst h30 h40
    have e2' : mach_make_memory_entry_64 self o.make_entry self (round_page page_shift 8000)
        a k1 = (KERN_SUCCESS, port, k2) := by
      have := e2
      simp only [line40, e1] at this
      exact this
    exact after_line40_read hrp e1 e2' _ _ _
  · intro h30 h40 h48
    rcases (hout.2.2.2 h30 h40 h48).1 with h | h
    · exact h
    · rw [hnc] at h
      exact absurd h (by decide)
  · intro hret
    refine ⟨?_, ?_, ?_⟩
    · by_contra h
      have := (hout.1 h).1
      simp [hret] at this
    · by_contra h
      by_cases h30 : (line30 page_shift 8000 self o k).1 = KERN_SUCCESS
      · have := (hout.2.1 h30 h).1
        simp [hret] at this
      · have := (hout.1 h30).1
        simp [hret] at this
    · by_contra h
      by_cases h30 : (line30 page_shift 8000 self o k).1 = KERN_SUCCESS
      · by_cases h40 : (line40 page_shift 8000 self o k).1 = KERN_SUCCESS
        · have := (hout.2.2.1 h30 h40 h).1
          simp [hret] at this
        · have := (hout.2.1 h30 h40).1
          simp [hret] at this
      · have := (hout.1 h30).1
        simp [hret] at this

/-- Witness for C5 (amended): the remote mapping fails after the first two calls
succeeded. -/
theorem CreateThePort_aborts_at_first_failure_witness :
    (12 < 64 ∧
      (line30 12 8000 1 ⟨some 4096, true, none⟩ Kernel.empty).1 = KERN_SUCCESS ∧
      (line40 12 8000 1 ⟨some 4096, true, none⟩ Kernel.empty).1 = KERN_SUCCESS ∧
      (line48 12 8000 1 2 ⟨some 4096, true, none⟩ 0 Kernel.empty).1 ≠ KERN_SUCCESS) ∧
    (CreateThePort 12 1 2 ⟨some 4096, true, none⟩ 0 Kernel.empty).ret = false ∧
    (CreateThePort 12 1 2 ⟨some 4096, true, none⟩ 0 Kernel.empty).out
      = [.failed_map 8000 (line48 12 8000 1 2 ⟨some 4096, true, none⟩ 0 Kernel.empty).1] ∧
    (CreateThePort 12 1 2 ⟨some 4096, true, none⟩ 0 Kernel.empty).child_address = 0 ∧
    (CreateThePort 12 1 2 ⟨some 4096, true, none⟩ 0 Kernel.empty).k.readInt 1
      (CreateThePort 12 1 2 ⟨some 4096, true, none⟩ 0 Kernel.empty).address = some 0 :=
  ⟨⟨by decide, by decide, by decide, by decide⟩,
    (CreateThePort_aborts_at_first_failure 12 1 2 ⟨some 4096, true, none⟩ 0 Kernel.empty _
      (by decide) rfl).2.2.1 (by decide) (by decide) (by decide)⟩

/-- C9: evaluation at the failing input.  When `read` fails and returns -1,
`numRead` is `2^64 - 1`, so `RunChildProcess` takes the 'Read from parent' branch
and prints the uninitialised `child_address`. -/
theorem RunChildProcess_failed_read_taken_as_data (data garbage : Nat) :
    RunChildProcess (-1) data garbage = [.running_child, .read_from_parent garbage] := by
  simp [RunChildProcess, after_read]

/-- For a byte count from 0 to 8, `RunChildProcess` takes the 'Read from parent'
branch exactly when at least one byte was delivered. -/
theorem RunChildProcess_byte_count (r : Int) (data garbage : Nat) (h0 : 0 ≤ r) (h8 : r ≤ 8) :
    (RunChildProcess r data garbage
      = [.running_child, .read_from_parent (after_read r data garbage)] ↔ 1 ≤ r) ∧
    (RunChildProcess r data garbage = [.running_child, .nothing_to_read] ↔ r = 0) := by
  have hm : r % 2 ^ 64 = r := Int.emod_eq_of_lt h0 (by omega)
  unfold RunChildProcess
  simp only [hm]
  by_cases h : 0 < r.toNat
  · have h1 : 1 ≤ r := by omega
    have h2 : r ≠ 0 := by omega
    simp [h, h1, h2]
  · have h1 : ¬ 1 ≤ r := by omega
    have h2 : r = 0 := by omega
    simp [h2]

/-- C10: evaluation at the failing input.  `CreateThePort` returns true with the
local region at 4096 and the remote one at 12288.  `RunParentProcess` then loads
from 12288 in its own address space: with nothing mapped there it faults, and
with an unrelated page of its own there (holding 7) it reports 7, not 42. -/
theorem RunParentProcess_loads_from_remote_address :
    (CreateThePort 12 1 2 ⟨some 4096, true, some 12288⟩ 0 Kernel.empty).ret = true ∧
    (RunParentProcess 12 1 2 ⟨some 4096, true, some 12288⟩ 0 Kernel.empty).crashed = true ∧
    (CreateThePort 12 1 2 ⟨some 4096, true, some 12288⟩ 0 (Kernel.withPage 1 12288 7)).ret
      = true ∧
    (RunParentProcess 12 1 2 ⟨some 4096, true, some 12288⟩ 0 (Kernel.withPage 1 12288 7)).out
      = [.creating_port, .address 4096, .child_address 12288, .create_port 1,
         .succeeded 12288 7] := by
  decide

/-! ## `setup_recv_port` inside the step machine -/

/-- The two program points `L71` and `L75` of the call of line 168 do what
`setup_recv_port (&parent_recv_port)` does, and continue at line 170 or return -1
as lines 168-169 say. -/
theorem setup_recv_port_line168 (fail71 fail75 : Bool) (p : Proc) (k : Kernel)
    (hpc : p.pc = .L71 .line168) :
    twoCalls fail71 fail75 p k =
      some ({ p with
              port := (mach_port_allocate p.self fail71 k).2.1
              parent_recv_port := (setup_recv_port p.self fail71 fail75 p.parent_recv_port k).2.1
              pc := if (setup_recv_port p.self fail71 fail75 p.parent_recv_port k).1 ≠ 0
                then .returned (-1) else .L170 },
            (setup_recv_port p.self fail71 fail75 p.parent_recv_port k).2.2) := by
  obtain ⟨self, bp, ct, prp, crp, port, pid, pc⟩ := p
  simp only at hpc
  subst hpc
  cases fail71 <;> cases fail75 <;>
    simp [twoCalls, sampling_fork_step, setup_recv_port, mach_port_allocate,
      mach_port_insert_right, Kernel.log, KERN_SUCCESS, KERN_FAILURE]

/-- The same for the call of line 182, which continues at line 184. -/
theorem setup_recv_port_line182 (fail71 fail75 : Bool) (p : Proc) (k : Kernel)
    (hpc : p.pc = .L71 .line182) :
    twoCalls fail71 fail75 p k =
      some ({ p with
              port := (mach_port_allocate p.self fail71 k).2.1
              child_recv_port := (setup_recv_port p.self fail71 fail75 p.child_recv_port k).2.1
              pc := if (setup_recv_port p.self fail71 fail75 p.child_recv_port k).1 ≠ 0
                then .returned (-1) else .L184 },
            (setup_recv_port p.self fail71 fail75 p.child_recv_port k).2.2) := by
  obtain ⟨self, bp, ct, prp, crp, port, pid, pc⟩ := p
  simp only at hpc
  subst hpc
  cases fail71 <;> cases fail75 <;>
    simp [twoCalls, sampling_fork_step, setup_recv_port, mach_port_allocate,
      mach_port_insert_right, Kernel.log, KERN_SUCCESS, KERN_FAILURE]

/-! ## The rendezvous: invariant of the runs without a failing call -/

theorem callsBy_snoc (c : Nat) (t : List Event) (e : Event) :
    callsBy c (t ++ [e]) = if e.caller = c then callsBy c t ++ [e] else callsBy c t := by
  unfold callsBy
  by_cases h : e.caller = c <;> simp [List.filter_append, h]

theorem Inv_initial (k0 : Kernel) (self b : Nat) : Inv k0 self b (initial k0 self b) 0 0 [] := by
  constructor <;> simp [initial, parentAt, childAt, parentPC, sent, rcvd, callsBy, MACH_PORT_NULL]

theorem Inv_step_parent (k0 : Kernel) (self b : Nat) (s s1 : Sys) (i j : Nat) (t : List Event)
    (hself : self < k0.nextPort) (hpid : 0 < k0.nextPid)
    (h : Inv k0 self b s i j t) (hs : step .parent false s = some s1) :
    ∃ i1 j1 t1, Inv k0 self b s1 i1 j1 t1 := by
  obtain ⟨k, p, c⟩ := s
  obtain ⟨hi, hj, hborn, hord1, hord2, hrep, hp, hc, hnp, hpidk, hbp, hbc, hqo, hqr, htr, hcp,
    hcc⟩ := h
  simp only at hp hc hnp hpidk hbp hbc hqo hqr htr
  subst hp hc
  have hne : self ≠ k0.nextPort + 1 := by omega
  have hne1 : ¬ k0.nextPort + 1 = self := by omega
  have hne2 : self ≠ k0.nextPort := by omega
  have hpid1 : (k0.nextPid : Int) ≠ 0 := by omega
  have hpid2 : (k0.nextPid : Int) ≠ -1 := by omega
  have hpid3 : k0.nextPid ≠ 0 := by omega
  interval_cases i
  · refine ⟨1, j, t ++ [⟨self, .mach_port_allocate k0.nextPort, KERN_SUCCESS⟩], ?_⟩
    interval_cases j <;> first | omega |
      (simp [step, sampling_fork_step, parentAt, childAt, parentPC, childPC, mach_port_allocate,
        mach_port_insert_right, task_set_bootstrap_port, task_get_bootstrap_port, fork,
        mach_port_deallocate, send_port, recv_port, mach_msg_send, mach_msg_rcv, Kernel.log,
        switch_pid, sent, rcvd, upd, KERN_SUCCESS, KERN_FAILURE, MACH_PORT_NULL, hpid1, hpid2, hpid3, hne, hne1, hne2] at hs; subst hs; constructor <;>
        simp [*, parentAt, childAt, parentPC, childPC, sent, rcvd, callsBy_snoc,
          parentCalls, childCalls, upd, KERN_SUCCESS, switch_pid, MACH_PORT_NULL])
  · refine ⟨2, j, t ++ [⟨self, .mach_port_insert_right k0.nextPort, KERN_SUCCESS⟩], ?_⟩
    interval_cases j <;> first | omega |
      (simp [step, sampling_fork_step, parentAt, childAt, parentPC, childPC, mach_port_allocate,
        mach_port_insert_right, task_set_bootstrap_port, task_get_bootstrap_port, fork,
        mach_port_deallocate, send_port, recv_port, mach_msg_send, mach_msg_rcv, Kernel.log,
        switch_pid, sent, rcvd, upd, KERN_SUCCESS, KERN_FAILURE, MACH_PORT_NULL, hpid1, hpid2, hpid3, hne, hne1, hne2] at hs; subst hs; constructor <;>
        simp [*, parentAt, childAt, parentPC, childPC, sent, rcvd, callsBy_snoc,
          parentCalls, childCalls, upd, KERN_SUCCESS, switch_pid, MACH_PORT_NULL])
  · refine ⟨3, j, t ++ [⟨self, .task_set_bootstrap_port self k0.nextPort, KERN_SUCCESS⟩], ?_⟩
    interval_cases j <;> first | omega |
      (simp [step, sampling_fork_step, parentAt, childAt, parentPC, childPC, mach_port_allocate,
        mach_port_insert_right, task_set_bootstrap_port, task_get_bootstrap_port, fork,
        mach_port_deallocate, send_port, recv_port, mach_msg_send, mach_msg_rcv, Kernel.log,
        switch_pid, sent, rcvd, upd, KERN_SUCCESS, KERN_FAILURE, MACH_PORT_NULL, hpid1, hpid2, hpid3, hne, hne1, hne2] at hs; subst hs; constructor <;>
        simp [*, parentAt, childAt, parentPC, childPC, sent, rcvd, callsBy_snoc,
          parentCalls, childCalls, upd, KERN_SUCCESS, switch_pid, MACH_PORT_NULL])
  · refine ⟨4, 1, t ++ [⟨self, .fork k0.nextPid, KERN_SUCCESS⟩], ?_⟩
    interval_cases j <;> first | omega |
      (simp [step, sampling_fork_step, parentAt, childAt, parentPC, childPC, mach_port_allocate,
        mach_port_insert_right, task_set_bootstrap_port, task_get_bootstrap_port, fork,
        mach_port_deallocate, send_port, recv_port, mach_msg_send, mach_msg_rcv, Kernel.log,
        switch_pid, sent, rcvd, upd, KERN_SUCCESS, KERN_FAILURE, MACH_PORT_NULL, hpid1, hpid2, hpid3, hne, hne1, hne2] at hs; subst hs; constructor <;>
        simp [*, parentAt, childAt, parentPC, childPC, sent, rcvd, callsBy_snoc,
          parentCalls, childCalls, upd, KERN_SUCCESS, switch_pid, MACH_PORT_NULL])
  · refine ⟨5, j, t ++ [⟨self, .task_set_bootstrap_port self b, KERN_SUCCESS⟩], ?_⟩
    interval_cases j <;> first | omega |
      (simp [step, sampling_fork_step, parentAt, childAt, parentPC, childPC, mach_port_allocate,
        mach_port_insert_right, task_set_bootstrap_port, task_get_bootstrap_port, fork,
        mach_port_deallocate, send_port, recv_port, mach_msg_send, mach_msg_rcv, Kernel.log,
        switch_pid, sent, rcvd, upd, KERN_SUCCESS, KERN_FAILURE, MACH_PORT_NULL, hpid1, hpid2, hpid3, hne, hne1, hne2] at hs; subst hs; constructor <;>
        simp [*, parentAt, childAt, parentPC, childPC, sent, rcvd, callsBy_snoc,
          parentCalls, childCalls, upd, KERN_SUCCESS, switch_pid, MACH_PORT_NULL])
  · refine ⟨6, j, t ++ [⟨self, .mach_msg_rcv k0.nextPort (k0.nextPort + 1), KERN_SUCCESS⟩], ?_⟩
    interval_cases j <;> first | omega |
      (simp [step, sampling_fork_step, parentAt, childAt, parentPC, childPC, mach_port_allocate,
        mach_port_insert_right, task_set_bootstrap_port, task_get_bootstrap_port, fork,
        mach_port_deallocate, send_port, recv_port, mach_msg_send, mach_msg_rcv, Kernel.log,
        switch_pid, sent, rcvd, upd, KERN_SUCCESS, KERN_FAILURE, MACH_PORT_NULL, hpid1, hpid2, hpid3, hne, hne1, hne2, hqo] at hs; subst hs; constructor <;>
        simp [*, parentAt, childAt, parentPC, childPC, sent, rcvd, callsBy_snoc,
          parentCalls, childCalls, upd, KERN_SUCCESS, switch_pid, MACH_PORT_NULL]) |
      simp [step, sampling_fork_step, parentAt, childAt, parentPC, childPC, mach_port_allocate,
        mach_port_insert_right, task_set_bootstrap_port, task_get_bootstrap_port, fork,
        mach_port_deallocate, send_port, recv_port, mach_msg_send, mach_msg_rcv, Kernel.log,
        switch_pid, sent, rcvd, upd, KERN_SUCCESS, KERN_FAILURE, MACH_PORT_NULL, hpid1, hpid2, hpid3, hne, hne1, hne2, hqo] at hs
  · refine ⟨7, j, t ++ [⟨self, .mach_msg_rcv k0.nextPort (k0.nextPort + 2), KERN_SUCCESS⟩], ?_⟩
    interval_cases j <;> first | omega |
      (simp [step, sampling_fork_step, parentAt, childAt, parentPC, childPC, mach_port_allocate,
        mach_port_insert_right, task_set_bootstrap_port, task_get_bootstrap_port, fork,
        mach_port_deallocate, send_port, recv_port, mach_msg_send, mach_msg_rcv, Kernel.log,
        switch_pid, sent, rcvd, upd, KERN_SUCCESS, KERN_FAILURE, MACH_PORT_NULL, hpid1, hpid2, hpid3, hne, hne1, hne2, hqo] at hs; subst hs; constructor <;>
        simp [*, parentAt, childAt, parentPC, childPC, sent, rcvd, callsBy_snoc,
          parentCalls, childCalls, upd, KERN_SUCCESS, switch_pid, MACH_PORT_NULL]) |
      simp [step, sampling_fork_step, parentAt, childAt, parentPC, childPC, mach_port_allocate,
        mach_port_insert_right, task_set_bootstrap_port, task_get_bootstrap_port, fork,
        mach_port_deallocate, send_port, recv_port, mach_msg_send, mach_msg_rcv, Kernel.log,
        switch_pid, sent, rcvd, upd, KERN_SUCCESS, KERN_FAILURE, MACH_PORT_NULL, hpid1, hpid2, hpid3, hne, hne1, hne2, hqo] at hs
  · refine ⟨8, j, t ++ [⟨self, .mach_msg_send (k0.nextPort + 2) b, KERN_SUCCESS⟩], ?_⟩
    interval_cases j <;> first | omega |
      (simp [step, sampling_fork_step, parentAt, childAt, parentPC, childPC, mach_port_allocate,
        mach_port_insert_right, task_set_bootstrap_port, task_get_bootstrap_port, fork,
        mach_port_deallocate, send_port, recv_port, mach_msg_send, mach_msg_rcv, Kernel.log,
        switch_pid, sent, rcvd, upd, KERN_SUCCESS, KERN_FAILURE, MACH_PORT_NULL, hpid1, hpid2, hpid3, hne, hne1, hne2] at hs; subst hs; constructor <;>
        simp [*, parentAt, childAt, parentPC, childPC, sent, rcvd, callsBy_snoc,
          parentCalls, childCalls, upd, KERN_SUCCESS, switch_pid, MACH_PORT_NULL])
  · refine ⟨9, j, t ++ [⟨self, .mach_port_deallocate k0.nextPort, KERN_SUCCESS⟩], ?_⟩
    interval_cases j <;> first | omega |
      (simp [step, sampling_fork_step, parentAt, childAt, parentPC, childPC, mach_port_allocate,
        mach_port_insert_right, task_set_bootstrap_port, task_get_bootstrap_port, fork,
        mach_port_deallocate, send_port, recv_port, mach_msg_send, mach_msg_rcv, Kernel.log,
        switch_pid, sent, rcvd, upd, KERN_SUCCESS, KERN_FAILURE, MACH_PORT_NULL, hpid1, hpid2, hpid3, hne, hne1, hne2] at hs; subst hs; constructor <;>
        simp [*, parentAt, childAt, parentPC, childPC, sent, rcvd, callsBy_snoc,
          parentCalls, childCalls, upd, KERN_SUCCESS, switch_pid, MACH_PORT_NULL])
  · simp [step, sampling_fork_step, parentAt, parentPC] at hs

theorem Inv_step_child (k0 : Kernel) (self b : Nat) (s s1 : Sys) (i j : Nat) (t : List Event)
    (hself : self < k0.nextPort) (hpid : 0 < k0.nextPid)
    (h : Inv k0 self b s i j t) (hs : step .child false s = some s1) :
    ∃ i1 j1 t1, Inv k0 self b s1 i1 j1 t1 := by
  obtain ⟨k, p, c⟩ := s
  obtain ⟨hi, hj, hborn, hord1, hord2, hrep, hp, hc, hnp, hpidk, hbp, hbc, hqo, hqr, htr, hcp,
    hcc⟩ := h
  simp only at hp hc hnp hpidk hbp hbc hqo hqr htr
  subst hp hc
  have hne : self ≠ k0.nextPort + 1 := by omega
  have hne1 : ¬ k0.nextPort + 1 = self := by omega
  have hne2 : self ≠ k0.nextPort := by omega
  have hpid1 : (k0.nextPid : Int) ≠ 0 := by omega
  have hpid2 : (k0.nextPid : Int) ≠ -1 := by omega
  have hpid3 : k0.nextPid ≠ 0 := by omega
  interval_cases j
  · simp [step, childAt] at hs
  · refine ⟨i, 2, t ++ [⟨k0.nextPort + 1, .task_get_bootstrap_port (k0.nextPort + 1) k0.nextPort, KERN_SUCCESS⟩], ?_⟩
    interval_cases i <;> first | omega |
      (simp [step, sampling_fork_step, parentAt, childAt, parentPC, childPC, mach_port_allocate,
        mach_port_insert_right, task_set_bootstrap_port, task_get_bootstrap_port, fork,
        mach_port_deallocate, send_port, recv_port, mach_msg_send, mach_msg_rcv, Kernel.log,
        switch_pid, sent, rcvd, upd, KERN_SUCCESS, KERN_FAILURE, MACH_PORT_NULL, hpid1, hpid2, hpid3, hne, hne1, hne2, hbc] at hs; subst hs; constructor <;>
        simp [*, parentAt, childAt, parentPC, childPC, sent, rcvd, callsBy_snoc,
          parentCalls, childCalls, upd, KERN_SUCCESS, switch_pid, MACH_PORT_NULL])
  · refine ⟨i, 3, t ++ [⟨k0.nextPort + 1, .mach_port_allocate (k0.nextPort + 2), KERN_SUCCESS⟩], ?_⟩
    interval_cases i <;> first | omega |
      (simp [step, sampling_fork_step, parentAt, childAt, parentPC, childPC, mach_port_allocate,
        mach_port_insert_right, task_set_bootstrap_port, task_get_bootstrap_port, fork,
        mach_port_deallocate, send_port, recv_port, mach_msg_send, mach_msg_rcv, Kernel.log,
        switch_pid, sent, rcvd, upd, KERN_SUCCESS, KERN_FAILURE, MACH_PORT_NULL, hpid1, hpid2, hpid3, hne, hne1, hne2] at hs; subst hs; constructor <;>
        simp [*, parentAt, childAt, parentPC, childPC, sent, rcvd, callsBy_snoc,
          parentCalls, childCalls, upd, KERN_SUCCESS, switch_pid, MACH_PORT_NULL])
  · refine ⟨i, 4, t ++ [⟨k0.nextPort + 1, .mach_port_insert_right (k0.nextPort + 2), KERN_SUCCESS⟩], ?_⟩
    interval_cases i <;> first | omega |
      (simp [step, sampling_fork_step, parentAt, childAt, parentPC, childPC, mach_port_allocate,
        mach_port_insert_right, task_set_bootstrap_port, task_get_bootstrap_port, fork,
        mach_port_deallocate, send_port, recv_port, mach_msg_send, mach_msg_rcv, Kernel.log,
        switch_pid, sent, rcvd, upd, KERN_SUCCESS, KERN_FAILURE, MACH_PORT_NULL, hpid1, hpid2, hpid3, hne, hne1, hne2] at hs; subst hs; constructor <;>
        simp [*, parentAt, childAt, parentPC, childPC, sent, rcvd, callsBy_snoc,
          parentCalls, childCalls, upd, KERN_SUCCESS, switch_pid, MACH_PORT_NULL])
  · refine ⟨i, 5, t ++ [⟨k0.nextPort + 1, .mach_msg_send k0.nextPort (k0.nextPort + 1), KERN_SUCCESS⟩], ?_⟩
    interval_cases i <;> first | omega |
      (simp [step, sampling_fork_step, parentAt, childAt, parentPC, childPC, mach_port_allocate,
        mach_port_insert_right, task_set_bootstrap_port, task_get_bootstrap_port, fork,
        mach_port_deallocate, send_port, recv_port, mach_msg_send, mach_msg_rcv, Kernel.log,
        switch_pid, sent, rcvd, upd, KERN_SUCCESS, KERN_FAILURE, MACH_PORT_NULL, hpid1, hpid2, hpid3, hne, hne1, hne2] at hs; subst hs; constructor <;>
        simp [*, parentAt, childAt, parentPC, childPC, sent, rcvd, callsBy_snoc,
          parentCalls, childCalls, upd, KERN_SUCCESS, switch_pid, MACH_PORT_NULL])
  · refine ⟨i, 6, t ++ [⟨k0.nextPort + 1, .mach_msg_send k0.nextPort (k0.nextPort + 2), KERN_SUCCESS⟩], ?_⟩
    interval_cases i <;> first | omega |
      (simp [step, sampling_fork_step, parentAt, childAt, parentPC, childPC, mach_port_allocate,
        mach_port_insert_right, task_set_bootstrap_port, task_get_bootstrap_port, fork,
        mach_port_deallocate, send_port, recv_port, mach_msg_send, mach_msg_rcv, Kernel.log,
        switch_pid, sent, rcvd, upd, KERN_SUCCESS, KERN_FAILURE, MACH_PORT_NULL, hpid1, hpid2, hpid3, hne, hne1, hne2] at hs; subst hs; constructor <;>
        simp [*, parentAt, childAt, parentPC, childPC, sent, rcvd, callsBy_snoc,
          parentCalls, childCalls, upd, KERN_SUCCESS, switch_pid, MACH_PORT_NULL])
  · refine ⟨i, 7, t ++ [⟨k0.nextPort + 1, .mach_msg_rcv (k0.nextPort + 2) b, KERN_SUCCESS⟩], ?_⟩
    interval_cases i <;> first | omega |
      (simp [step, sampling_fork_step, parentAt, childAt, parentPC, childPC, mach_port_allocate,
        mach_port_insert_right, task_set_bootstrap_port, task_get_bootstrap_port, fork,
        mach_port_deallocate, send_port, recv_port, mach_msg_send, mach_msg_rcv, Kernel.log,
        switch_pid, sent, rcvd, upd, KERN_SUCCESS, KERN_FAILURE, MACH_PORT_NULL, hpid1, hpid2, hpid3, hne, hne1, hne2, hqr] at hs; subst hs; constructor <;>
        simp [*, parentAt, childAt, parentPC, childPC, sent, rcvd, callsBy_snoc,
          parentCalls, childCalls, upd, KERN_SUCCESS, switch_pid, MACH_PORT_NULL]) |
      simp [step, sampling_fork_step, parentAt, childAt, parentPC, childPC, mach_port_allocate,
        mach_port_insert_right, task_set_bootstrap_port, task_get_bootstrap_port, fork,
        mach_port_deallocate, send_port, recv_port, mach_msg_send, mach_msg_rcv, Kernel.log,
        switch_pid, sent, rcvd, upd, KERN_SUCCESS, KERN_FAILURE, MACH_PORT_NULL, hpid1, hpid2, hpid3, hne, hne1, hne2, hqr] at hs
  · refine ⟨i, 8, t ++ [⟨k0.nextPort + 1, .task_set_bootstrap_port (k0.nextPort + 1) b, KERN_SUCCESS⟩], ?_⟩
    interval_cases i <;> first | omega |
      (simp [step, sampling_fork_step, parentAt, childAt, parentPC, childPC, mach_port_allocate,
        mach_port_insert_right, task_set_bootstrap_port, task_get_bootstrap_port, fork,
        mach_port_deallocate, send_port, recv_port, mach_msg_send, mach_msg_rcv, Kernel.log,
        switch_pid, sent, rcvd, upd, KERN_SUCCESS, KERN_FAILURE, MACH_PORT_NULL, hpid1, hpid2, hpid3, hne, hne1, hne2] at hs; subst hs; constructor <;>
        simp [*, parentAt, childAt, parentPC, childPC, sent, rcvd, callsBy_snoc,
          parentCalls, childCalls, upd, KERN_SUCCESS, switch_pid, MACH_PORT_NULL])
  · simp [step, sampling_fork_step, childAt, childPC] at hs

theorem Inv_run (k0 : Kernel) (self b : Nat) (hself : self < k0.nextPort)
    (hpid : 0 < k0.nextPid) (sched : Schedule) :
    ∀ (s : Sys) (i j : Nat) (t : List Event), noFail sched = true → Inv k0 self b s i j t →
      ∃ i1 j1 t1, Inv k0 self b (run sched s) i1 j1 t1 := by
  induction sched with
  | nil => exact fun s i j t _ h => ⟨i, j, t, h⟩
  | cons tick rest ih =>
    intro s i j t hnf h
    obtain ⟨who, fail⟩ := tick
    simp only [noFail, List.all_cons, Bool.and_eq_true, Bool.not_eq_true'] at hnf
    obtain ⟨hf, hrest⟩ := hnf
    subst hf
    unfold run
    cases hstep : step who false s with
    | none => exact ih s i j t hrest h
    | some s1 =>
      simp only
      cases who with
      | parent =>
        obtain ⟨i1, j1, t1, h1⟩ := Inv_step_parent k0 self b s s1 i j t hself hpid h hstep
        exact ih s1 i1 j1 t1 hrest h1
      | child =>
        obtain ⟨i1, j1, t1, h1⟩ := Inv_step_child k0 self b s s1 i j t hself hpid h hstep
        exact ih s1 i1 j1 t1 hrest h1

/-- Every state of a run of `sampling_fork` without a failing kernel call is one of
the states described by `Inv`. -/
theorem run_Inv (k0 : Kernel) (self b : Nat) (sched : Schedule) (hself : self < k0.nextPort)
    (hpid : 0 < k0.nextPid) (hnf : noFail sched = true) :
    ∃ i j t, Inv k0 self b (run sched (initial k0 self b)) i j t :=
  Inv_run k0 self b hself hpid sched _ 0 0 [] hnf (Inv_initial k0 self b)

/-! ## The rendezvous: properties C1, C2, C6, C7 and C8 -/

theorem mem_of_mem_callsBy (c : Nat) {t : List Event} {e : Event} (h : e ∈ callsBy c t) :
    e ∈ t :=
  (List.mem_filter.mp h).1

/-- C8. In the runs of the two processes in which no kernel call fails, under any
interleaving, every state reached is the completed state or a state in which one
of the two processes can make its next call; in no state reached are both
processes waiting in a receive on an empty queue. -/
theorem rendezvous_never_deadlocks (k0 : Kernel) (self b : Nat) (sched : Schedule) (s : Sys)
    (hself : self < k0.nextPort) (hpid : 0 < k0.nextPid) (hnf : noFail sched = true)
    (hs : run sched (initial k0 self b) = s) :
    (completed k0 s = true ∨ enabled .parent s = true ∨ enabled .child s = true) ∧
    ¬ (blocked s.parent s.k = true ∧ ∃ c, s.child = some c ∧ blocked c s.k = true) := by
  obtain ⟨i, j, t, h⟩ := run_Inv k0 self b sched hself hpid hnf
  rw [hs] at h
  obtain ⟨k, p, c⟩ := s
  obtain ⟨hi, hj, hborn, hord1, hord2, hrep, hp, hc, hnp, hpidk, hbp, hbc, hqo, hqr, htr, hcp,
    hcc⟩ := h
  simp only at hp hc hnp hpidk hbp hbc hqo hqr htr
  subst hp hc
  have hsince : k0.since k = t := since_append _ _ _ htr
  have hpid1 : (k0.nextPid : Int) ≠ 0 := by omega
  have hpid3 : k0.nextPid ≠ 0 := by omega
  have hd : i = 9 →
      (⟨self, .mach_port_deallocate k0.nextPort, KERN_SUCCESS⟩ : Event) ∈ t := by
    intro hi9
    apply mem_of_mem_callsBy self
    rw [hcp, hi9]
    simp [parentCalls]
  simp only [KERN_SUCCESS] at hd
  interval_cases i <;> interval_cases j <;> first | omega |
    simp [completed, enabled, blocked, step, sampling_fork_step, parentAt, childAt, parentPC,
      childPC, mach_port_allocate, mach_port_insert_right, task_set_bootstrap_port,
      task_get_bootstrap_port, fork, mach_port_deallocate, send_port, recv_port, mach_msg_send,
      mach_msg_rcv, Kernel.log, switch_pid, sent, rcvd, KERN_SUCCESS, MACH_PORT_NULL, hqo, hqr,
      hbc, hsince, hd, hpid1, hpid3]

/-- Witness for C8: the round-robin run from `Kernel.demo` ends in the completed
state. -/
theorem rendezvous_never_deadlocks_witness :
    (5 < Kernel.demo.nextPort ∧ 0 < Kernel.demo.nextPid ∧ noFail roundRobin = true) ∧
    completed Kernel.demo (run roundRobin (initial Kernel.demo 5 7)) = true ∧
    ((completed Kernel.demo (run roundRobin (initial Kernel.demo 5 7)) = true ∨
      enabled .parent (run roundRobin (initial Kernel.demo 5 7)) = true ∨
      enabled .child (run roundRobin (initial Kernel.demo 5 7)) = true) ∧
    ¬ (blocked (run roundRobin (initial Kernel.demo 5 7)).parent
        (run roundRobin (initial Kernel.demo 5 7)).k = true ∧
      ∃ c, (run roundRobin (initial Kernel.demo 5 7)).child = some c ∧
        blocked c (run roundRobin (initial Kernel.demo 5 7)).k = true)) :=
  ⟨⟨by decide, by decide, by decide⟩, by decide,
    rendezvous_never_deadlocks Kernel.demo 5 7 roundRobin _ (by decide) (by decide) (by decide)
      rfl⟩

/-- C1. In every run without a failing kernel call, once the call of the new
process has returned: it returned 0; the bootstrap port of the new task is `b`, the
value the global `bootstrap_port` of the pre-existing process held when it called
`sampling_fork`; that capability was sent by the pre-existing process to the
endpoint `child_recv_port` of the new one, received there and installed by the
last call the new process made; and it differs from the capability the new
process obtained at line 180 as its inherited bootstrap port, which is the endpoint
`parent_recv_port` of the pre-existing process. -/
theorem replica_bootstrap_is_true_bootstrap (k0 : Kernel) (self b : Nat) (sched : Schedule)
    (s : Sys) (c : Proc) (v : Int)
    (hself : self < k0.nextPort) (hpid : 0 < k0.nextPid) (hb : b < k0.nextPort)
    (hnf : noFail sched = true) (hs : run sched (initial k0 self b) = s)
    (hc : s.child = some c) (hret : c.pc = .returned v) :
    v = 0 ∧
    s.k.bootstrap c.self = b ∧
    (⟨self, .mach_msg_send c.child_recv_port b, KERN_SUCCESS⟩ : Event) ∈ k0.since s.k ∧
    (⟨c.self, .mach_msg_rcv c.child_recv_port b, KERN_SUCCESS⟩ : Event) ∈ k0.since s.k ∧
    (callsBy c.self (k0.since s.k)).getLast?
      = some ⟨c.self, .task_set_bootstrap_port c.self b, KERN_SUCCESS⟩ ∧
    (⟨c.self, .task_get_bootstrap_port c.self c.parent_recv_port, KERN_SUCCESS⟩ : Event)
      ∈ k0.since s.k ∧
    c.parent_recv_port = s.parent.parent_recv_port ∧
    (⟨self, .mach_port_allocate c.parent_recv_port, KERN_SUCCESS⟩ : Event) ∈ k0.since s.k ∧
    s.k.bootstrap c.self ≠ c.parent_recv_port := by
  obtain ⟨i, j, t, h⟩ := run_Inv k0 self b sched hself hpid hnf
  rw [hs] at h
  obtain ⟨k, p, c1⟩ := s
  obtain ⟨hi, hj, hborn, hord1, hord2, hrep, hp, hc1, hnp, hpidk, hbp, hbc, hqo, hqr, htr, hcp,
    hcc⟩ := h
  simp only at hp hc1 hnp hpidk hbp hbc hqo hqr htr hc
  subst hp
  rw [hc1] at hc
  have hsince : k0.since k = t := since_append _ _ _ htr
  have hj8 : j = 8 := by
    interval_cases j <;> simp [childAt, childPC] at hc <;>
      first | rfl | (subst hc; simp at hret)
  subst hj8
  have hi8 : 8 ≤ i := hrep (by omega)
  have hbc1 := hbc (by omega)
  simp only [show ¬ (8 ≤ 7) by omega, if_false] at hbc1
  simp [childAt, childPC] at hc
  subst hc
  simp only [PC.returned.injEq] at hret
  simp only [hsince]
  have hmp : ∀ e, e ∈ (parentCalls self b k0.nextPort k0.nextPid).take i → e ∈ t := by
    intro e he
    rw [← hcp] at he
    exact mem_of_mem_callsBy _ he
  have hmc : ∀ e, e ∈ (childCalls b k0.nextPort).take 7 → e ∈ t := by
    intro e he
    rw [show (7 : Nat) = 8 - 1 from rfl, ← hcc] at he
    exact mem_of_mem_callsBy _ he
  have hbne : b ≠ k0.nextPort := by omega
  refine ⟨hret.symm, ?_, ?_, ?_, ?_, ?_, ?_, ?_, ?_⟩
  · exact hbc1
  · apply hmp
    interval_cases i <;> simp [parentCalls]
  · apply hmc
    simp [childCalls]
  · rw [hcc]
    simp [childCalls]
  · apply hmc
    simp [childCalls]
  · interval_cases i <;> simp [parentAt]
  · apply hmp
    interval_cases i <;> simp [parentCalls]
  · rw [hbc1]
    exact hbne

/-- Witness for C1: the round-robin run from `Kernel.demo`, task 5 with bootstrap
port 7; the new task is 11 and its bootstrap port ends as 7, not the endpoint 10. -/
theorem replica_bootstrap_is_true_bootstrap_witness :
    (5 < Kernel.demo.nextPort ∧ 0 < Kernel.demo.nextPid ∧ 7 < Kernel.demo.nextPort ∧
      noFail roundRobin = true ∧
      (run roundRobin (initial Kernel.demo 5 7)).child
        = some ⟨11, 7, 0, 10, 12, 12, 0, .returned 0⟩) ∧
    (run roundRobin (initial Kernel.demo 5 7)).k.bootstrap 11 = 7 :=
  ⟨⟨by decide, by decide, by decide, by decide, by decide⟩,
    (replica_bootstrap_is_true_bootstrap Kernel.demo 5 7 roundRobin _
      ⟨11, 7, 0, 10, 12, 12, 0, .returned 0⟩ 0 (by decide) (by decide) (by decide) (by decide)
      rfl (by decide) rfl).2.1⟩

/-- C2. In every run without a failing kernel call, with `c` the new process: the
messages `c` has sent are, in order, an initial part of "its own task port, then
its endpoint `child_recv_port`", both to the endpoint `parent_recv_port` of the
pre-existing process, and the messages that process has received are an initial
part of the same list.  Once its first receive has returned, `child_task` is the
task port of `c`; once the second has returned, its `child_recv_port` is the
endpoint `c` allocated, both messages have been sent and received in that order;
and the messages it has sent are none before line 200 returns and after that the
single message carrying `b` to its `child_recv_port`. -/
theorem capabilities_received_in_send_order (k0 : Kernel) (self b : Nat) (sched : Schedule)
    (s : Sys) (c : Proc)
    (hself : self < k0.nextPort) (hpid : 0 < k0.nextPid)
    (hnf : noFail sched = true) (hs : run sched (initial k0 self b) = s)
    (hc : s.child = some c) :
    sends (callsBy c.self (k0.since s.k)) <+:
      [(s.parent.parent_recv_port, c.self), (s.parent.parent_recv_port, c.child_recv_port)] ∧
    receives (callsBy self (k0.since s.k)) <+:
      [(s.parent.parent_recv_port, c.self), (s.parent.parent_recv_port, c.child_recv_port)] ∧
    (s.parent.pc.past196 = true →
      s.parent.child_task = c.self ∧
      (receives (callsBy self (k0.since s.k))).head?
        = some (s.parent.parent_recv_port, c.self)) ∧
    (s.parent.pc.past198 = true →
      s.parent.child_recv_port = c.child_recv_port ∧
      (⟨c.self, .mach_port_allocate c.child_recv_port, KERN_SUCCESS⟩ : Event) ∈ k0.since s.k ∧
      sends (callsBy c.self (k0.since s.k)) =
        [(s.parent.parent_recv_port, c.self),
         (s.parent.parent_recv_port, c.child_recv_port)] ∧
      receives (callsBy self (k0.since s.k)) =
        [(s.parent.parent_recv_port, c.self),
         (s.parent.parent_recv_port, c.child_recv_port)]) ∧
    (s.parent.pc.past200 = false → sends (callsBy self (k0.since s.k)) = []) ∧
    (s.parent.pc.past200 = true →
      sends (callsBy self (k0.since s.k)) = [(s.parent.child_recv_port, b)]) := by
  obtain ⟨i, j, t, h⟩ := run_Inv k0 self b sched hself hpid hnf
  rw [hs] at h
  obtain ⟨k, p, c1⟩ := s
  obtain ⟨hi, hj, hborn, hord1, hord2, hrep, hp, hc1, hnp, hpidk, hbp, hbc, hqo, hqr, htr, hcp,
    hcc⟩ := h
  simp only at hp hc1 hnp hpidk hbp hbc hqo hqr htr hc
  subst hp
  rw [hc1] at hc
  have hsince : k0.since k = t := since_append _ _ _ htr
  have hma : 3 ≤ j →
      (⟨k0.nextPort + 1, .mach_port_allocate (k0.nextPort + 2), 0⟩ : Event) ∈ t := by
    intro h3
    apply mem_of_mem_callsBy (k0.nextPort + 1)
    rw [hcc]
    interval_cases j <;> first | omega | simp [childCalls, KERN_SUCCESS]
  simp only [hsince]
  interval_cases i <;> interval_cases j <;> first | omega |
    (simp [childAt, childPC] at hc
     subst hc
     simp [hcp, hcc, hma, parentAt, parentPC, parentCalls, childCalls, sends, receives,
       PC.past196, PC.past198, PC.past200, KERN_SUCCESS, MACH_PORT_NULL]) |
    simp [childAt] at hc

/-- Witness for C2: the round-robin run from `Kernel.demo`; the pre-existing
process ends with `child_task` 11, the task port of the new process. -/
theorem capabilities_received_in_send_order_witness :
    (5 < Kernel.demo.nextPort ∧ 0 < Kernel.demo.nextPid ∧ noFail roundRobin = true ∧
      (run roundRobin (initial Kernel.demo 5 7)).child
        = some ⟨11, 7, 0, 10, 12, 12, 0, .returned 0⟩ ∧
      (run roundRobin (initial Kernel.demo 5 7)).parent.pc.past196 = true) ∧
    (run roundRobin (initial Kernel.demo 5 7)).parent.child_task = 11 :=
  ⟨⟨by decide, by decide, by decide, by decide, by decide⟩,
    ((capabilities_received_in_send_order Kernel.demo 5 7 roundRobin _
      ⟨11, 7, 0, 10, 12, 12, 0, .returned 0⟩ (by decide) (by decide) (by decide)
      rfl (by decide)).2.2.1 (by decide)).1⟩

/-- C6: evaluation at the failing input.  `fork` succeeds and the pre-existing
process returns the pid, so `main` runs `RunParentProcess` in it; in the new
process the call of line 190 fails, `sampling_fork` returns -1 there, and `main`
runs `RunParentProcess` in the new process as well. -/
theorem new_process_runs_RunParentProcess :
    (run lastChildCallFails (initial Kernel.demo 5 7)).parent.pc = .returned 1 ∧
    role (run lastChildCallFails (initial Kernel.demo 5 7)).parent
      = some .RunParentProcess ∧
    (run lastChildCallFails (initial Kernel.demo 5 7)).child
      = some ⟨11, 7, 0, 10, 12, 12, 0, .returned (-1)⟩ ∧
    ((run lastChildCallFails (initial Kernel.demo 5 7)).child.bind role)
      = some .RunParentProcess := by
  decide

/-- C7: evaluation at the failing input.  Task 5 holds 7 as bootstrap port; `fork`
fails; `sampling_fork` returns -1 in the only process there is, whose bootstrap
port is then still the endpoint 10 installed at line 170.  For comparison, when
`fork` succeeds and the receive of line 196 fails, `sampling_fork` also returns -1
but the bootstrap port is 7 again. -/
theorem failed_fork_leaves_bootstrap_overridden :
    Kernel.demo.bootstrap 5 = 7 ∧
    (run forkFails (initial Kernel.demo 5 7)).parent.pc = .returned (-1) ∧
    (run forkFails (initial Kernel.demo 5 7)).child = none ∧
    (run forkFails (initial Kernel.demo 5 7)).parent.parent_recv_port = 10 ∧
    (run forkFails (initial Kernel.demo 5 7)).k.bootstrap 5 = 10 ∧
    (run firstReceiveFails (initial Kernel.demo 5 7)).parent.pc = .returned (-1) ∧
    (run firstReceiveFails (initial Kernel.demo 5 7)).k.bootstrap 5 = 7 := by
  decide

/-! ## Return values in arbitrary runs -/

theorem rolesOK_step_parent (fail : Bool) (s s1 : Sys) (h : rolesOK s)
    (hs : step .parent fail s = some s1) : rolesOK s1 := by
  obtain ⟨k, p, c⟩ := s
  obtain ⟨hpid, hp, hc⟩ := h
  simp only at hpid hp hc
  have hpid1 : (k.nextPid : Int) ≠ 0 := by omega
  have hpid2 : (k.nextPid : Int) ≠ -1 := by omega
  obtain ⟨self, bp, ct, prp, crp, port, pid, pc⟩ := p
  cases hq : k.queue prp <;> cases pc <;> cases fail <;>
    (try rename_i site; cases site) <;>
    simp [parentOK] at hp <;>
    simp [step, sampling_fork_step, mach_port_allocate, mach_port_insert_right,
      task_set_bootstrap_port, task_get_bootstrap_port, fork, mach_port_deallocate,
      send_port, recv_port, mach_msg_send, mach_msg_rcv, Kernel.log, switch_pid,
      KERN_SUCCESS, KERN_FAILURE, hq, hpid1, hpid2, hp] at hs <;>
    subst hs <;>
    simp [rolesOK, parentOK, childOK, hpid, hp, switch_pid, hpid1, hpid2] <;>
    exact hc

theorem rolesOK_step_child (fail : Bool) (s s1 : Sys) (h : rolesOK s)
    (hs : step .child fail s = some s1) : rolesOK s1 := by
  obtain ⟨k, p, c⟩ := s
  obtain ⟨hpid, hp, hc⟩ := h
  simp only at hpid hp hc
  cases c with
  | none => simp [step] at hs
  | some c =>
    have hc1 := hc c rfl
    obtain ⟨self, bp, ct, prp, crp, port, pid, pc⟩ := c
    unfold childOK at hc1
    obtain ⟨hc0, hc2⟩ := hc1
    simp only at hc0 hc2
    subst hc0
    cases hq : k.queue crp <;> cases pc <;> cases fail <;>
      (try rename_i site; cases site) <;>
      simp only at hc2 <;>
      simp [step, sampling_fork_step, mach_port_allocate, mach_port_insert_right,
        task_set_bootstrap_port, task_get_bootstrap_port, fork, mach_port_deallocate,
        send_port, recv_port, mach_msg_send, mach_msg_rcv, Kernel.log, switch_pid,
        KERN_SUCCESS, KERN_FAILURE, hq] at hs <;>
      subst hs <;>
      simp [rolesOK, parentOK, childOK, hpid] <;>
      exact hp

theorem rolesOK_step (who : Who) (fail : Bool) (s s1 : Sys) (h : rolesOK s)
    (hs : step who fail s = some s1) : rolesOK s1 := by
  cases who with
  | parent => exact rolesOK_step_parent fail s s1 h hs
  | child => exact rolesOK_step_child fail s s1 h hs

theorem rolesOK_run (sched : Schedule) : ∀ s : Sys, rolesOK s → rolesOK (run sched s) := by
  induction sched with
  | nil => exact fun s h => h
  | cons tick rest ih =>
    intro s h
    obtain ⟨who, fail⟩ := tick
    unfold run
    cases hstep : step who fail s with
    | none => exact ih s h
    | some s1 => exact ih s1 (rolesOK_step who fail s s1 h hstep)

/-- In every run, failing calls included: the pre-existing process never returns 0
from `sampling_fork`, so `main` runs `RunParentProcess` in it; the new process
returns 0 or -1, and `main` runs `RunChildProcess` in it only when it returned 0. -/
theorem roles_in_every_run (k0 : Kernel) (self b : Nat) (sched : Schedule) (s : Sys)
    (hpid : 0 < k0.nextPid) (hs : run sched (initial k0 self b) = s) :
    (∀ r, role s.parent = some r → r = .RunParentProcess) ∧
    (∀ c v, s.child = some c → c.pc = .returned v →
      (v = 0 ∨ v = -1) ∧ (role c = some .RunChildProcess ↔ v = 0)) := by
  have h := rolesOK_run sched (initial k0 self b)
    ⟨hpid, by simp [initial, parentOK], by simp [initial]⟩
  rw [hs] at h
  obtain ⟨-, hp, hc⟩ := h
  constructor
  · intro r hr
    unfold role at hr
    unfold parentOK at hp
    cases hpc : s.parent.pc <;> simp [hpc] at hr hp
    subst hr
    simp [main_branch, hp]
  · intro c v hcs hret
    have h2 := (hc c hcs).2
    simp only [hret] at h2
    refine ⟨h2, ?_⟩
    unfold role
    simp only [hret, Option.some.injEq]
    rcases h2 with rfl | rfl <;> simp [main_branch]

/-! ## Further facts about the paths that work -/

/-- In a run without a failing call, once the pre-existing process has returned
from `sampling_fork` its bootstrap port is again `b`. -/
theorem originator_bootstrap_restored (k0 : Kernel) (self b : Nat) (sched : Schedule)
    (s : Sys) (v : Int)
    (hself : self < k0.nextPort) (hpid : 0 < k0.nextPid)
    (hnf : noFail sched = true) (hs : run sched (initial k0 self b) = s)
    (hret : s.parent.pc = .returned v) :
    v = k0.nextPid ∧ s.k.bootstrap self = b := by
  obtain ⟨i, j, t, h⟩ := run_Inv k0 self b sched hself hpid hnf
  rw [hs] at h
  obtain ⟨k, p, c1⟩ := s
  obtain ⟨hi, hj, hborn, hord1, hord2, hrep, hp, hc1, hnp, hpidk, hbp, hbc, hqo, hqr, htr, hcp,
    hcc⟩ := h
  simp only at hp hbp hret
  subst hp
  interval_cases i <;> simp [parentAt, parentPC] at hret
  simp [hbp, hret]

/-- When the remote mapping happens to be placed at the address of the local
region, the load of line 156 hits the local mapping and reports 42. -/
theorem RunParentProcess_content_when_addresses_coincide (page_shift self child_task : Nat)
    (o : VmChoices) (ca : Nat) (k : Kernel) (hps : page_shift < 64)
    (hret : (CreateThePort page_shift self child_task o ca k).ret = true)
    (hsame : (CreateThePort page_shift self child_task o ca k).child_address
      = (CreateThePort page_shift self child_task o ca k).address) :
    (RunParentProcess page_shift self child_task o ca k).crashed = false ∧
    (RunParentProcess page_shift self child_task o ca k).out
      = .creating_port :: ((CreateThePort page_shift self child_task o ca k).out ++
          [.succeeded (CreateThePort page_shift self child_task o ca k).address 42]) := by
  have hrp := round_page_8000_pos page_shift hps
  obtain ⟨a, a', -, -, hra, hrc, -, -, hl, -, hmem⟩ :=
    CreateThePortWithSize_success page_shift 8000 self child_task o ca k _ rfl hrp hret
  have hnc := CreateThePortWithSize_no_crash page_shift 8000 self child_task o ca k hrp
  have hread : (CreateThePort page_shift self child_task o ca k).k.readInt self
      (CreateThePort page_shift self child_task o ca k).address = some 42 := by
    unfold CreateThePort
    rw [hra]
    simp [Kernel.readInt, hl, hmem]
  unfold RunParentProcess
  simp only [CreateThePort] at hret hread hsame ⊢
  simp [hnc, hret, hread, hsame]

/-- From every well-formed initial state the round-robin run ends in the completed
state. -/
theorem roundRobin_completes (k0 : Kernel) (self b : Nat) (hself : self < k0.nextPort)
    (hpid : 0 < k0.nextPid) :
    completed k0 (run roundRobin (initial k0 self b)) = true := by
  have hne : self ≠ k0.nextPort + 1 := by omega
  have hne1 : ¬ k0.nextPort + 1 = self := by omega
  have hne2 : self ≠ k0.nextPort := by omega
  have hpid1 : (k0.nextPid : Int) ≠ 0 := by omega
  have hpid2 : (k0.nextPid : Int) ≠ -1 := by omega
  have hpid3 : k0.nextPid ≠ 0 := by omega
  simp [roundRobin, run, initial, step, sampling_fork_step, mach_port_allocate,
    mach_port_insert_right, task_set_bootstrap_port, task_get_bootstrap_port, fork,
    mach_port_deallocate, send_port, recv_port, mach_msg_send, mach_msg_rcv, Kernel.log,
    switch_pid, upd, KERN_SUCCESS, MACH_PORT_NULL, completed, Kernel.since, hpid1, hpid2, hpid3,
    hne, hne1, hne2, Nat.add_assoc]

end MachSharedMemory
